import Mathlib

/-!
Verification development for the receipt-OCR extraction pipeline
(`src/extrator-comprovantes-ocr`).  The Python modules
`src/utils/helpers.py`, `src/ocr/extractor.py` and `src/main.py` are
shallowly embedded below: pure string manipulation is modelled over
`List Char` / `String`, monetary values over `ℚ` (the Python floats that
occur are exact small decimals), dictionaries with optional keys as
structures with `Option` fields, and each regular expression used by the
source as an explicit pattern value interpreted by a small backtracking
matcher that follows Python `re` semantics (leftmost match, alternatives
and quantifier choices explored in priority order).
-/

/-! ## Python character primitives -/

/-- The character set matched by the regex class `\s` and stripped by
`str.strip()` (ASCII whitespace; the inputs of this code base contain no
exotic Unicode whitespace). -/
def pyIsSpace (c : Char) : Bool :=
  c == ' ' || c == '\t' || c == '\n' || c == '\r' ||
  c == Char.ofNat 11 || c == Char.ofNat 12

/-- `str.lower` on the characters that occur in this code base: ASCII
letters plus the accented letters used in the bank-keyword signatures. -/
def pyLowerChar (c : Char) : Char :=
  if 'A' ≤ c ∧ c ≤ 'Z' then Char.ofNat (c.toNat + 32)
  else if c = 'Á' then 'á' else if c = 'À' then 'à'
  else if c = 'Â' then 'â' else if c = 'Ã' then 'ã'
  else if c = 'É' then 'é' else if c = 'È' then 'è'
  else if c = 'Ê' then 'ê' else if c = 'Í' then 'í'
  else if c = 'Ì' then 'ì' else if c = 'Î' then 'î'
  else if c = 'Ó' then 'ó' else if c = 'Ò' then 'ò'
  else if c = 'Ô' then 'ô' else if c = 'Õ' then 'õ'
  else if c = 'Ú' then 'ú' else if c = 'Ù' then 'ù'
  else if c = 'Û' then 'û' else if c = 'Ç' then 'ç'
  else c

def pyLowerList (l : List Char) : List Char := l.map pyLowerChar

/-- `text.lower()`. -/
def pyLower (s : String) : String := String.mk (pyLowerList s.toList)

/-- `str.strip()` on a character list. -/
def pyStripList (l : List Char) : List Char :=
  ((l.dropWhile pyIsSpace).reverse.dropWhile pyIsSpace).reverse

/-- `str.strip()`. -/
def pyStrip (s : String) : String := String.mk (pyStripList s.toList)

/-- Python substring membership `needle in hay`. -/
def pyInList (needle : List Char) : List Char → Bool
  | [] => needle.isEmpty
  | c :: rest => needle.isPrefixOf (c :: rest) || pyInList needle rest

/-- Python substring membership `needle in hay` on strings. -/
def pyIn (needle hay : String) : Bool := pyInList needle.toList hay.toList

/-- Python `a or b` on strings (`a` wins unless it is empty/falsy). -/
def pyOr (a b : String) : String := if a = "" then b else a



def pyUpperChar (c : Char) : Char :=
  if 'a' ≤ c ∧ c ≤ 'z' then Char.ofNat (c.toNat - 32) else c

def pyIsAlphaChar (c : Char) : Bool :=
  ('a' ≤ c ∧ c ≤ 'z') || ('A' ≤ c ∧ c ≤ 'Z')

/-- `str.title()`: first letter of each alphabetic run upper-cased, the
rest lower-cased (ASCII, which covers the layout labels it is applied to). -/
def pyTitleGo : Bool → List Char → List Char
  | _, [] => []
  | prevAlpha, c :: rest =>
      let c' := if pyIsAlphaChar c then (if prevAlpha then pyLowerChar c else pyUpperChar c) else c
      c' :: pyTitleGo (pyIsAlphaChar c) rest

def pyTitle (s : String) : String := String.mk (pyTitleGo false s.toList)

/-- Single-character `str.replace` (the only form the source uses for
character swaps). -/
def replaceChar (a b : Char) (l : List Char) : List Char :=
  l.map (fun c => if c = a then b else c)

/-! ## Decimal digits and number rendering -/

def digitChar (d : ℕ) : Char :=
  match d % 10 with
  | 0 => '0' | 1 => '1' | 2 => '2' | 3 => '3' | 4 => '4'
  | 5 => '5' | 6 => '6' | 7 => '7' | 8 => '8' | _ => '9'

/-- Value of a digit character. -/
def digitVal (c : Char) : ℕ := c.toNat - 48

/-- Value of a list of decimal digit characters (most significant first). -/
def digitsVal (l : List Char) : ℕ := l.foldl (fun a c => 10 * a + digitVal c) 0

def natToDecGo : ℕ → ℕ → List Char
  | 0, _ => []
  | fuel + 1, n =>
      if n < 10 then [digitChar n]
      else natToDecGo fuel (n / 10) ++ [digitChar (n % 10)]

/-- Decimal rendering of a natural number (the embedding of Python's
`%d` / `str(int)` formatting). -/
def natToDecStr (n : ℕ) : List Char := natToDecGo (n + 1) n

/-- Two-digit zero-padded rendering (`%02d`), used for the cents part of
`.2f` formatting. -/
def pad2 (n : ℕ) : List Char := [digitChar (n / 10 % 10), digitChar n]

/-- Three-digit zero-padded rendering (`%03d`). -/
def pad3 (n : ℕ) : List Char :=
  if n < 10 then '0' :: '0' :: [digitChar n]
  else if n < 100 then '0' :: [digitChar (n / 10), digitChar n]
  else natToDecStr n

/-- Insert `sep` after every third character of a reversed digit list;
helper for thousands grouping. -/
def group3Rev (sep : Char) : List Char → List Char
  | a :: b :: c :: d :: rest => a :: b :: c :: sep :: group3Rev sep (d :: rest)
  | l => l

/-- Thousands grouping from the right, as Python's `format(x, ',')`. -/
def group3 (sep : Char) (l : List Char) : List Char :=
  (group3Rev sep l.reverse).reverse

/-- Exact decimal surrogate for the Python floats of this code base:
the value is `m / 10^e`.  Every float that flows through the extraction
pipeline is produced by parsing a decimal literal or is a decimal
constant, so this representation is exact; it is chosen over `ℚ`
because its arithmetic is kernel-computable (no gcd normalization). -/
structure PyFloat where
  m : ℤ
  e : ℕ
deriving DecidableEq

namespace PyFloat

/-- The rational value of a `PyFloat`; claim statements are phrased
through this boundary. -/
def toQ (x : PyFloat) : ℚ := (x.m : ℚ) / (10 : ℚ) ^ x.e

def ofNat (n : ℕ) : PyFloat := ⟨(n : ℤ), 0⟩

/-- Value comparison `x <= y` (cross-multiplied, denominators `10^e` are
positive). -/
def le (x y : PyFloat) : Bool := decide (x.m * (10 : ℤ) ^ y.e ≤ y.m * (10 : ℤ) ^ x.e)

/-- Value comparison `x < y`. -/
def lt (x y : PyFloat) : Bool := decide (x.m * (10 : ℤ) ^ y.e < y.m * (10 : ℤ) ^ x.e)

/-- Python `int(x)`: truncation toward zero. -/
def truncInt (x : PyFloat) : ℤ := x.m.tdiv ((10 : ℤ) ^ x.e)

/-- Multiplication by 100 (used when formatting to cents). -/
def mul100 (x : PyFloat) : PyFloat := ⟨x.m * 100, x.e⟩

/-- Round half to even, the rounding Python applies when formatting a
float with `.2f` / `.0f` (exact for every value this code base
formats). -/
def roundHE (x : PyFloat) : ℤ :=
  let den : ℤ := (10 : ℤ) ^ x.e
  let q := x.m.fdiv den
  let r := x.m - q * den
  if den < 2 * r then q + 1
  else if 2 * r < den then q
  else if q % 2 == 0 then q else q + 1

end PyFloat

/-- Python `a or b` on numbers (`a` wins unless its value is zero). -/
def pyOrF (a b : PyFloat) : PyFloat := if a.m = 0 then b else a

/-- Python `float()` on the simple unsigned/signed decimal literals this
code base produces (`"12"`, `"12."`, `".5"`, `"12.34"`); anything else —
including the empty string — fails like `ValueError`. -/
def pyFloatCore (m : List Char) : Option PyFloat :=
  let ip := m.takeWhile Char.isDigit
  let rest := m.dropWhile Char.isDigit
  match rest with
  | [] => if ip.isEmpty then none else some ⟨(digitsVal ip : ℤ), 0⟩
  | c :: fp =>
      if c = '.' then
        if fp.all Char.isDigit ∧ (ip ≠ [] ∨ fp ≠ []) then
          some ⟨(digitsVal ip : ℤ) * (10 : ℤ) ^ fp.length + (digitsVal fp : ℤ), fp.length⟩
        else none
      else none

def pyFloatList (l : List Char) : Option PyFloat :=
  match l with
  | [] => pyFloatCore []
  | c :: m =>
      if c = '-' then (pyFloatCore m).map (fun q => ⟨-q.m, q.e⟩)
      else pyFloatCore (c :: m)

def pyFloat (s : String) : Option PyFloat := pyFloatList s.toList

/-! ## A small matcher for the regular expressions of the source

Each regex used by the Python source is written as a sequence of
`RItem`s (literals, character classes with counted greedy/lazy
repetition, end-of-string).  `matchSeq` returns the possible rests of
the input in exactly the priority order in which Python's backtracking
`re` engine explores them, so taking the first overall success
reproduces `re.search` / `re.match`.  Alternations (`a|b`) are expanded
into lists of pattern variants tried in order at each start position,
which is equivalent for the patterns of this code base (none of them
nests alternation under repetition). -/

inductive RItem where
  | lit : List Char → RItem
  | litci : List Char → RItem
  | cls : (Char → Bool) → ℕ → Option ℕ → Bool → RItem
  | eos : RItem

/-- Case-insensitive character comparison (`re.IGNORECASE`). -/
def ciEq (a b : Char) : Bool := pyLowerChar a == pyLowerChar b

def ciIsPrefixOf : List Char → List Char → Bool
  | [], _ => true
  | _ :: _, [] => false
  | a :: as, b :: bs => ciEq a b && ciIsPrefixOf as bs

/-- Length of the maximal prefix of `l` satisfying `p`, capped at `cap`. -/
def countWhileUpTo (p : Char → Bool) (cap : ℕ) (l : List Char) : ℕ :=
  ((l.take cap).takeWhile p).length

/-- Candidate repetition counts in the order regex backtracking tries
them: `min..maxTake` ascending for lazy, descending for greedy. -/
def repCounts (mn maxTake : ℕ) (lazyRep : Bool) : List ℕ :=
  if maxTake < mn then []
  else
    let asc := (List.range (maxTake - mn + 1)).map (mn + ·)
    if lazyRep then asc else asc.reverse

/-- All possible rests after matching the item sequence at the head of
the input, in regex priority order. -/
def matchSeq : List RItem → List Char → List (List Char)
  | [], s => [s]
  | RItem.lit w :: ps, s =>
      if w.isPrefixOf s then matchSeq ps (s.drop w.length) else []
  | RItem.litci w :: ps, s =>
      if ciIsPrefixOf w s then matchSeq ps (s.drop w.length) else []
  | RItem.cls p mn mx lazyRep :: ps, s =>
      let cap := match mx with | some m => m | none => s.length
      let available := countWhileUpTo p cap s
      (repCounts mn available lazyRep).flatMap (fun k => matchSeq ps (s.drop k))
  | RItem.eos :: ps, s =>
      if s = [] ∨ s = ['\n'] then matchSeq ps s else []

/-- A pattern with (at most) one capture group: `pre (grp) post`. -/
structure RPat where
  pre : List RItem
  grp : List RItem
  post : List RItem

/-- Attempt a match anchored at the start of `s`; on success returns
(whole match, group 1, rest of the input after the match). -/
def tryAt (p : RPat) (s : List Char) : Option (List Char × List Char × List Char) :=
  (matchSeq p.pre s).findSome? fun r1 =>
    (matchSeq p.grp r1).findSome? fun r2 =>
      (matchSeq p.post r2).head?.map fun r3 =>
        (s.take (s.length - r3.length), r1.take (r1.length - r2.length), r3)

/-- `re.search` over a list of top-level alternatives: scan start
positions left to right, at each position try the variants in order. -/
def reSearchList (vs : List RPat) : List Char → Option (List Char × List Char × List Char)
  | [] => vs.findSome? (tryAt · [])
  | c :: rest =>
      match vs.findSome? (tryAt · (c :: rest)) with
      | some r => some r
      | none => reSearchList vs rest

def reSearch (vs : List RPat) (s : List Char) : Option (List Char × List Char × List Char) :=
  reSearchList vs s

/-- Group 1 of the first match, `match.group(1)` after `re.search`. -/
def reSearchGroup1 (vs : List RPat) (s : List Char) : Option (List Char) :=
  (reSearch vs s).map (fun r => r.2.1)

/-- Group 0 of the first match, `match.group(0)` after `re.search`. -/
def reSearchGroup0 (vs : List RPat) (s : List Char) : Option (List Char) :=
  (reSearch vs s).map (fun r => r.1)

/-- Did the pattern match at all (`if re.search(...)`)? -/
def reTest (vs : List RPat) (s : List Char) : Bool :=
  (reSearch vs s).isSome

def reFindAllGo (vs : List RPat) : ℕ → List Char → List (List Char)
  | 0, _ => []
  | fuel + 1, s =>
      match reSearch vs s with
      | none => []
      | some (g0, g1, rest) =>
          g1 :: (if g0.isEmpty then [] else reFindAllGo vs fuel rest)

/-- `re.findall` (the captured group of each non-overlapping match, left
to right; all the patterns it is applied to match at least one
character, so the scan always advances). -/
def reFindAll (vs : List RPat) (s : List Char) : List (List Char) :=
  reFindAllGo vs (s.length + 1) s

/-! Shorthand for the character classes the source's regexes use. -/

def clsDigit (mn : ℕ) (mx : Option ℕ) (lazyRep : Bool) : RItem :=
  RItem.cls Char.isDigit mn mx lazyRep

def clsWs (mn : ℕ) (mx : Option ℕ) : RItem :=
  RItem.cls pyIsSpace mn mx false

def isSepChar (c : Char) : Bool := c == ',' || c == '.'

/-- `[,.]?` -/
def clsSepOpt : RItem := RItem.cls isSepChar 0 (some 1) false

/-- `.` (any char except newline), with `*` repetition. -/
def clsDotStar : RItem := RItem.cls (fun c => !(c == '\n')) 0 none false

def accentedLower : List Char :=
  ['á', 'à', 'â', 'ã', 'é', 'è', 'ê', 'í', 'ì', 'î', 'ó', 'ò', 'ô', 'õ', 'ú', 'ù', 'û', 'ç']

/-- `[A-Za-záàâãéèêíìîóòôõúùûç\s]` under `re.IGNORECASE`. -/
def isNameChar (c : Char) : Bool :=
  let lc := pyLowerChar c
  ('a' ≤ lc ∧ lc ≤ 'z') || accentedLower.contains lc || pyIsSpace c

def clsName (mn : ℕ) (mx : Option ℕ) (lazyRep : Bool) : RItem :=
  RItem.cls isNameChar mn mx lazyRep

/-- Python `\w` on the characters of this code base. -/
def isWordChar (c : Char) : Bool :=
  ('a' ≤ c ∧ c ≤ 'z') || ('A' ≤ c ∧ c ≤ 'Z') || c.isDigit || c == '_' ||
  accentedLower.contains c || accentedLower.contains (pyLowerChar c)

/-! ## Data model

A Python dict of extraction results is modelled as a structure whose
fields are `Option`-valued: `none` models an absent key, mirroring both
`'key' in data` tests and `data.get('key', default)` reads. -/

structure ExtractedData where
  erro : Option String := none
  raw_text : Option String := none
  cleaned_text : Option String := none
  layout_detectado : Option String := none
  arquivo : Option String := none
  processado_em : Option String := none
  tipo_documento : Option String := none
  valor_numerico : Option PyFloat := none
  valor_total : Option PyFloat := none
  destino_nome : Option String := none
  recebedor_nome : Option String := none
  origem_nome : Option String := none
  pagador_nome : Option String := none
  origem_cpf : Option String := none
  pagador_cpf : Option String := none
  destino_cpf : Option String := none
  recebedor_cpf : Option String := none
  chave_pix : Option String := none
  data : Option String := none
  hora : Option String := none
  data_hora : Option String := none
  situacao : Option String := none
  origem_instituicao : Option String := none
  destino_instituicao : Option String := none
  pagador_instituicao : Option String := none
  id_transacao : Option String := none
  autenticacao : Option String := none
  descricao : Option String := none
  codigo_operacao : Option String := none
deriving DecidableEq

/-- Python `str.replace` (all non-overlapping occurrences, left to
right), with fuel bounded by the input length. -/
def replaceStrGo (pat rep : List Char) : ℕ → List Char → List Char
  | 0, l => l
  | _ + 1, [] => []
  | fuel + 1, c :: rest =>
      if pat.isPrefixOf (c :: rest) then
        rep ++ replaceStrGo pat rep fuel ((c :: rest).drop pat.length)
      else c :: replaceStrGo pat rep fuel rest

def pyReplace (s pat rep : String) : String :=
  String.mk (replaceStrGo pat.toList rep.toList (s.toList.length + 1) s.toList)

namespace helpers

/-- `helpers.correct_common_ocr_errors`: the fixed OCR substitution
table, applied in the source's (insertion) order. -/
def correct_common_ocr_errors (text : String) : String :=
  let t1 := pyReplace text "Ana Cieuma" "Ana Cleuma"
  let t2 := pyReplace t1 "Ana Cieima" "Ana Cleuma"
  let t3 := pyReplace t2 "Sheiia" "Sheila"
  let t4 := pyReplace t3 "Antonlo" "Antonio"
  let t5 := pyReplace t4 "R5 " "R$ "
  let t6 := pyReplace t5 "RS " "R$ "
  let t7 := pyReplace t6 "2O25" "2025"
  let t8 := pyReplace t7 "O5/" "05/"
  let t9 := pyReplace t8 "NU PAGAMENT0S" "NU PAGAMENTOS"
  let t10 := pyReplace t9 "Wili Bank" "Will Bank"
  pyReplace t10 "E2386276220250520201" "E238627622025052020"

/-- `helpers.detect_document_layout` (the copy in `utils/helpers.py`,
the one imported and used by `OCRExtractor.extract_data`). -/
def detect_document_layout (text : String) : String :=
  let t := pyLower text
  if pyIn "will bank" t || pyIn "willbank" t then "will_bank"
  else if pyIn "nu pagamentos" t && !(pyIn "will bank" t) then "nubank"
  else if pyIn "caixa econômica" t || pyIn "caixa" t then "caixa"
  else if pyIn "banco do brasil" t then "bb"
  else if pyIn "bradesco" t then "bradesco"
  else if pyIn "itaú" t || pyIn "itau" t then "itau"
  else if pyIn "santander" t then "santander"
  else "generico"

/-! `helpers.validate_cpf`: the four anchored patterns.  Each regex is a
sequence of exact counts and single optional separator characters; for
such patterns greedy matching without backtracking is equivalent to the
regex (an optional item can only match empty when the next character is
not in its class, in which case taking the item would fail the following
exact-count item at once), so each pattern is embedded as a
deterministic recognizer.  `$` in `re.match` also accepts a single
trailing newline. -/

def eatExact (p : Char → Bool) : ℕ → List Char → Option (List Char)
  | 0, l => some l
  | _ + 1, [] => none
  | n + 1, c :: rest => if p c then eatExact p n rest else none

def eatOpt (p : Char → Bool) : List Char → List Char
  | [] => []
  | c :: rest => if p c then rest else c :: rest

def isStarChar (c : Char) : Bool := c == '*'

def isDashChar (c : Char) : Bool := c == '-'

def atEnd (l : List Char) : Bool := l.isEmpty || l == ['\n']

/-- `^\*{3}[.,]?\d{3}[.,]?\d{3}-?\*{2}$` -/
def cpfPatMasked (l : List Char) : Bool :=
  match eatExact isStarChar 3 l with
  | none => false
  | some l1 =>
    match eatExact Char.isDigit 3 (eatOpt isSepChar l1) with
    | none => false
    | some l2 =>
      match eatExact Char.isDigit 3 (eatOpt isSepChar l2) with
      | none => false
      | some l3 =>
        match eatExact isStarChar 2 (eatOpt isDashChar l3) with
        | none => false
        | some l4 => atEnd l4

/-- `^\d{3}[.,]?\d{3}[.,]?\d{3}-?\d{2}$` -/
def cpfPatFull (l : List Char) : Bool :=
  match eatExact Char.isDigit 3 l with
  | none => false
  | some l1 =>
    match eatExact Char.isDigit 3 (eatOpt isSepChar l1) with
    | none => false
    | some l2 =>
      match eatExact Char.isDigit 3 (eatOpt isSepChar l2) with
      | none => false
      | some l3 =>
        match eatExact Char.isDigit 2 (eatOpt isDashChar l3) with
        | none => false
        | some l4 => atEnd l4

/-- `^\*{3}\d{3}\d{3}\*{2}$` -/
def cpfPatMaskedBare (l : List Char) : Bool :=
  match eatExact isStarChar 3 l with
  | none => false
  | some l1 =>
    match eatExact Char.isDigit 6 l1 with
    | none => false
    | some l2 =>
      match eatExact isStarChar 2 l2 with
      | none => false
      | some l3 => atEnd l3

/-- `^\d{11}$` -/
def cpfPatDigits11 (l : List Char) : Bool :=
  match eatExact Char.isDigit 11 l with
  | none => false
  | some l1 => atEnd l1

/-- `helpers.validate_cpf`. -/
def validate_cpf (cpf : String) : Bool :=
  if cpf = "" then false
  else
    let l := pyStripList cpf.toList
    cpfPatMasked l || cpfPatFull l || cpfPatMaskedBare l || cpfPatDigits11 l

/-- `helpers.format_currency`: `f"R$ {value:,.2f}"` followed by the
comma/dot swap `.replace(',', 'X').replace('.', ',').replace('X', '.')`.
The float formatting is exact for the two-decimal amounts this system
handles, modelled by half-even rounding of `value * 100` to cents. -/
def format_currency (value : PyFloat) : String :=
  let cents : ℤ := (value.mul100).roundHE
  let c := cents.natAbs
  let sign : List Char := if cents < 0 then ['-'] else []
  let base := ['R', '$', ' '] ++ sign ++
    group3 ',' (natToDecStr (c / 100)) ++ '.' :: pad2 (c % 100)
  String.mk (replaceChar 'X' '.' (replaceChar '.' ',' (replaceChar ',' 'X' base)))

/-! `helpers.extract_value_with_fallback` and its three patterns. -/

/-- `R\$\s*(\d+[,.]?\d{0,2})` -/
def evwfPat1 : RPat :=
  ⟨[RItem.lit ['R', '$'], clsWs 0 none],
   [clsDigit 1 none false, clsSepOpt, clsDigit 0 (some 2) false], []⟩

/-- `(\d+[,.]?\d{2})` -/
def evwfPat2 : RPat :=
  ⟨[], [clsDigit 1 none false, clsSepOpt, clsDigit 2 (some 2) false], []⟩

/-- `Valor[:\s]*R?\$?\s*(\d+[,.]?\d{0,2})` -/
def evwfPat3 : RPat :=
  ⟨[RItem.lit ['V', 'a', 'l', 'o', 'r'],
    RItem.cls (fun c => c == ':' || pyIsSpace c) 0 none false,
    RItem.cls (· == 'R') 0 (some 1) false,
    RItem.cls (· == '$') 0 (some 1) false,
    clsWs 0 none],
   [clsDigit 1 none false, clsSepOpt, clsDigit 0 (some 2) false], []⟩

/-- `f"{valor_esperado:.0f}"`: half-even rounding to an integer, then
decimal rendering. -/
def floatFmt0 (v : PyFloat) : List Char :=
  let r := v.roundHE
  (if r < 0 then ['-'] else []) ++ natToDecStr r.natAbs

/-- First positive parseable value among the findall results of one
pattern. -/
def firstPositiveValue (p : RPat) (text : List Char) : Option PyFloat :=
  (reFindAll [p] text).findSome? (fun g =>
    match pyFloatList (replaceChar ',' '.' g) with
    | some v => if PyFloat.lt ⟨0, 0⟩ v then some v else none
    | none => none)

/-- `helpers.extract_value_with_fallback`. -/
def extract_value_with_fallback (text : String) (expected : List PyFloat) : PyFloat :=
  let t := text.toList
  match (firstPositiveValue evwfPat1 t).orElse (fun _ =>
        (firstPositiveValue evwfPat2 t).orElse (fun _ =>
         firstPositiveValue evwfPat3 t)) with
  | some v => v
  | none =>
      match expected.findSome? (fun v =>
        if pyInList (floatFmt0 v) t then some v else none) with
      | some v => v
      | none => ⟨0, 0⟩

/-- Result dict of `helpers.validate_specific_patterns`. -/
structure PatternValidation where
  matchesL : List String
  mismatches : List String
  confidence : ℚ
deriving DecidableEq

/-- `helpers.validate_specific_patterns` (the known Ana Cleuma / Will
Bank checks; the score attached to the chatbot output comes from here). -/
def validate_specific_patterns (d : ExtractedData) : PatternValidation :=
  let anaBlock : List String × List String :=
    if d.destino_nome.isSome || d.recebedor_nome.isSome then
      let nomeDest := pyOr (d.destino_nome.getD "") (d.recebedor_nome.getD "")
      if pyIn "Ana Cleuma" nomeDest then
        if pyIn "99451-5533" (d.chave_pix.getD "") then
          (["✅ Destinatária Ana Cleuma identificada",
            "✅ Chave PIX Ana Cleuma confirmada"], [])
        else
          (["✅ Destinatária Ana Cleuma identificada"],
           ["❌ Chave PIX não confere com Ana Cleuma"])
      else ([], [])
    else ([], [])
  let wbBlock : List String :=
    if d.origem_instituicao == some "Will Bank" || d.layout_detectado == some "will_bank" then
      let cpfHit := [("origem_cpf", d.origem_cpf), ("pagador_cpf", d.pagador_cpf),
                     ("destino_cpf", d.destino_cpf)].findSome? (fun pr =>
        let cpf := pr.2.getD ""
        if cpf ≠ "" ∧ pyIn "," cpf = true ∧ pyIn "." cpf = true then
          some ("✅ CPF formato Will Bank: " ++ pr.1)
        else none)
      "✅ Will Bank detectado" :: cpfHit.toList
    else []
  let ms := anaBlock.1 ++ wbBlock
  let mm := anaBlock.2
  let total := ms.length + mm.length
  { matchesL := ms, mismatches := mm,
    confidence := if 0 < total then (ms.length : ℚ) / (total : ℚ) else 0 }

end helpers

namespace OCRExtractor

/-! ### `extract_pix_will_bank_data` and its patterns -/

/-- `Para\s+Ana Cleuma Sousa Dos Santos` (IGNORECASE). -/
def wbDestinoPat1 : RPat :=
  ⟨[RItem.litci "Para".toList, clsWs 1 none,
    RItem.litci "Ana Cleuma Sousa Dos Santos".toList], [], []⟩

/-- `Para\s+([A-Za-z…\s]+?)(?:\s*CPF)` (IGNORECASE). -/
def wbDestinoPat2 : RPat :=
  ⟨[RItem.litci "Para".toList, clsWs 1 none],
   [clsName 1 none true],
   [clsWs 0 none, RItem.litci "CPF".toList]⟩

/-- Destination-name extraction loop of `extract_pix_will_bank_data`:
first matching pattern wins; a match whose group 0 contains the
exact-case `'Ana Cleuma'` is canonicalized, otherwise `group(1)` is
taken.  The first pattern has no capture group, so when it matches
(case-insensitively) but its group 0 lacks the exact-case
`'Ana Cleuma'`, the source raises `IndexError('no such group')` at
`match.group(1)`; that reachable error path is modelled as
`Except.error`. -/
def wbDestino (cl : List Char) : Except String (Option String) :=
  match reSearch [wbDestinoPat1] cl with
  | some r =>
      if pyInList "Ana Cleuma".toList r.1 then Except.ok (some "Ana Cleuma Sousa Dos Santos")
      else Except.error "no such group"
  | none =>
      match reSearch [wbDestinoPat2] cl with
      | some r =>
          if pyInList "Ana Cleuma".toList r.1 then Except.ok (some "Ana Cleuma Sousa Dos Santos")
          else Except.ok (some (String.mk (pyStripList r.2.1)))
      | none => Except.ok none

/-- `De\s+([A-Za-z…\s]+?)(?:\s*CPF)` (IGNORECASE). -/
def wbOrigemPat1 : RPat :=
  ⟨[RItem.litci "De".toList, clsWs 1 none],
   [clsName 1 none true],
   [clsWs 0 none, RItem.litci "CPF".toList]⟩

/-- `Origem.*De\s+([A-Za-z…\s]+?)(?:\s*\*)` (IGNORECASE). -/
def wbOrigemPat2 : RPat :=
  ⟨[RItem.litci "Origem".toList, clsDotStar, RItem.litci "De".toList, clsWs 1 none],
   [clsName 1 none true],
   [clsWs 0 none, RItem.lit ['*']]⟩

def wbOrigem (cl : List Char) : Option String :=
  let step : RPat → Option String := fun p =>
    (reSearch [p] cl).map (fun r => String.mk (pyStripList r.2.1))
  (step wbOrigemPat1).orElse (fun _ => step wbOrigemPat2)

/-- `\(88\)\s+\(?…` — the three literal key patterns of step 4. -/
def wbChavePat1 : RPat :=
  ⟨[RItem.lit "(88)".toList, clsWs 0 none, RItem.lit "99451-5533".toList], [], []⟩

def wbChavePat2 : RPat :=
  ⟨[RItem.lit "88".toList, clsWs 0 none, RItem.lit "99451-5533".toList], [], []⟩

def wbChavePat3 : RPat :=
  ⟨[RItem.lit "+5588994515533".toList], [], []⟩

/-- `OCRExtractor.extract_pix_will_bank_data`: the Will-Bank PIX
extractor, including its hard-coded per-person value/date/CPF rules.
The destination-name step can raise (see `wbDestino`), so the result is
an `Except`; the remaining steps are pure. -/
def extract_pix_will_bank_data (text : String) : Except String ExtractedData :=
  let cleaned := helpers.correct_common_ocr_errors text
  let cl := cleaned.toList
  let valor : PyFloat :=
    if pyIn "Antonio Valmi" cleaned then ⟨33, 0⟩
    else if pyIn "Sheila Fernandes" cleaned then ⟨17, 0⟩
    else helpers.extract_value_with_fallback cleaned [⟨17, 0⟩, ⟨33, 0⟩]
  match wbDestino cl with
  | Except.error e => Except.error e
  | Except.ok destinoNome =>
  let origemNome : Option String :=
    if pyIn "Antonio Valmi" cleaned then some "Antonio Valmi Passos Da Rocha"
    else if pyIn "Sheila Fernandes" cleaned then some "Sheila Fernandes Da Silva"
    else wbOrigem cl
  let origemCpf : Option String :=
    match origemNome with
    | some n =>
        if pyIn "Antonio" n then some "***,097.048-**"
        else if pyIn "Sheila" n then some "***,687.783-**"
        else none
    | none => none
  let destinoCpf : Option String :=
    match destinoNome with
    | some n => if pyIn "Ana Cleuma" n then some "***,120.983-**" else none
    | none => none
  let chave : Option String :=
    if reTest [wbChavePat1] cl || reTest [wbChavePat2] cl || reTest [wbChavePat3] cl then
      some "(88) 99451-5533"
    else none
  let dataF : Option String :=
    match origemNome with
    | some n =>
        if pyIn "Antonio" n then some "20/05/2025"
        else if pyIn "Sheila" n then some "22/05/2025"
        else none
    | none => none
  let horaF : Option String :=
    match origemNome with
    | some n =>
        if pyIn "Antonio" n then some "17:51:22"
        else if pyIn "Sheila" n then some "17:52:04"
        else none
    | none => none
  let dataHora := pyStrip ((dataF.getD "") ++ " " ++ (horaF.getD ""))
  let codigo :=
    if PyFloat.lt ⟨0, 0⟩ valor then "PIX_WILL_BANK_" ++ String.mk (pad3 valor.truncInt.toNat)
    else "PIX_WILL_BANK_000"
  Except.ok
    { valor_numerico := some valor, valor_total := some valor,
      destino_nome := destinoNome, recebedor_nome := destinoNome,
      origem_nome := origemNome, pagador_nome := origemNome,
      origem_cpf := origemCpf, pagador_cpf := origemCpf,
      destino_cpf := destinoCpf, recebedor_cpf := destinoCpf,
      chave_pix := chave,
      data := dataF, hora := horaF, data_hora := some dataHora,
      situacao := some "Efetivado",
      origem_instituicao := some "Will Bank",
      destino_instituicao := some "NU PAGAMENTOS - IP",
      tipo_documento := some "pix",
      codigo_operacao := some codigo }

/-! ### `extract_nubank_data` and its patterns -/

/-- `Valor\s+R\$\s*(\d+[,.]?\d{0,2})` -/
def nbValorPat1 : RPat :=
  ⟨[RItem.lit "Valor".toList, clsWs 1 none, RItem.lit "R$".toList, clsWs 0 none],
   [clsDigit 1 none false, clsSepOpt, clsDigit 0 (some 2) false], []⟩

/-- `R\$\s*(\d+[,.]?\d{0,2})` -/
def nbValorPat2 : RPat :=
  ⟨[RItem.lit "R$".toList, clsWs 0 none],
   [clsDigit 1 none false, clsSepOpt, clsDigit 0 (some 2) false], []⟩

/-- `(\d+[,.]?\d{2})\s*(?:reais|$)`, alternative `reais`. -/
def nbValorPat3a : RPat :=
  ⟨[], [clsDigit 1 none false, clsSepOpt, clsDigit 2 (some 2) false],
   [clsWs 0 none, RItem.lit "reais".toList]⟩

/-- `(\d+[,.]?\d{2})\s*(?:reais|$)`, alternative `$`. -/
def nbValorPat3b : RPat :=
  ⟨[], [clsDigit 1 none false, clsSepOpt, clsDigit 2 (some 2) false],
   [clsWs 0 none, RItem.eos]⟩

/-- The value loop of `extract_nubank_data`: first pattern whose first
match parses and passes the sanity filter `0.01 <= valor <= 10000`;
out-of-range or unparseable candidates fall through to the next
pattern. -/
def nbValorTry (vs : List RPat) (cl : List Char) : Option PyFloat :=
  match reSearchGroup1 vs cl with
  | some g =>
      match pyFloatList (replaceChar ',' '.' g) with
      | some v => if PyFloat.le ⟨1, 2⟩ v ∧ PyFloat.le v ⟨10000, 0⟩ then some v else none
      | none => none
  | none => none

def nbValor (cl : List Char) : Option PyFloat :=
  (nbValorTry [nbValorPat1] cl).orElse (fun _ =>
    (nbValorTry [nbValorPat2] cl).orElse (fun _ =>
      nbValorTry [nbValorPat3a, nbValorPat3b] cl))

def nbMonths : List String := ["MAI", "JUN", "JUL", "AGO", "SET", "OUT", "NOV", "DEZ"]

/-- `(\d{1,2})\s+(MAI|JUN|JUL|AGO|SET|OUT|NOV|DEZ)\s+(\d{4})`
(the source keeps `match.group(0)`). -/
def nbDataPat1 : List RPat :=
  nbMonths.map (fun m =>
    ⟨[clsDigit 1 (some 2) false, clsWs 1 none, RItem.lit m.toList,
      clsWs 1 none, clsDigit 4 (some 4) false], [], []⟩)

/-- `(\d{1,2}/\d{1,2}/\d{4})` -/
def nbDataPat2 : RPat :=
  ⟨[clsDigit 1 (some 2) false, RItem.lit ['/'], clsDigit 1 (some 2) false,
    RItem.lit ['/'], clsDigit 4 (some 4) false], [], []⟩

/-- `(\d{1,2}\s+de\s+\w+\s+de\s+\d{4})` -/
def nbDataPat3 : RPat :=
  ⟨[clsDigit 1 (some 2) false, clsWs 1 none, RItem.lit "de".toList, clsWs 1 none,
    RItem.cls isWordChar 1 none false, clsWs 1 none, RItem.lit "de".toList,
    clsWs 1 none, clsDigit 4 (some 4) false], [], []⟩

def nbData (cl : List Char) : Option String :=
  (((reSearchGroup0 nbDataPat1 cl).orElse (fun _ =>
     (reSearchGroup0 [nbDataPat2] cl).orElse (fun _ =>
      reSearchGroup0 [nbDataPat3] cl)))).map String.mk

/-- `(\d{1,2}:\d{2}:\d{2})` -/
def nbHoraPat1 : RPat :=
  ⟨[], [clsDigit 1 (some 2) false, RItem.lit [':'], clsDigit 2 (some 2) false,
        RItem.lit [':'], clsDigit 2 (some 2) false], []⟩

/-- `(\d{1,2}h\d{2})` -/
def nbHoraPat2 : RPat :=
  ⟨[], [clsDigit 1 (some 2) false, RItem.lit ['h'], clsDigit 2 (some 2) false], []⟩

/-- `às\s+(\d{1,2}:\d{2}:\d{2})` -/
def nbHoraPat3 : RPat :=
  ⟨[RItem.lit "às".toList, clsWs 1 none],
   [clsDigit 1 (some 2) false, RItem.lit [':'], clsDigit 2 (some 2) false,
    RItem.lit [':'], clsDigit 2 (some 2) false], []⟩

def nbHora (cl : List Char) : Option String :=
  (((reSearchGroup1 [nbHoraPat1] cl).orElse (fun _ =>
     (reSearchGroup1 [nbHoraPat2] cl).orElse (fun _ =>
      reSearchGroup1 [nbHoraPat3] cl)))).map String.mk

/-- `Nome\s+([…]+?)(?:\s*Instituição)` (IGNORECASE). -/
def nbOrigemPat1 : RPat :=
  ⟨[RItem.litci "Nome".toList, clsWs 1 none],
   [clsName 1 none true],
   [clsWs 0 none, RItem.litci "Instituição".toList]⟩

/-- `Origem.*Nome\s+([…]+?)(?:\s*Instituição)` (IGNORECASE). -/
def nbOrigemPat2 : RPat :=
  ⟨[RItem.litci "Origem".toList, clsDotStar, RItem.litci "Nome".toList, clsWs 1 none],
   [clsName 1 none true],
   [clsWs 0 none, RItem.litci "Instituição".toList]⟩

/-- `De\s+([…]+?)(?:\s*CPF)` (IGNORECASE). -/
def nbOrigemPat3 : RPat :=
  ⟨[RItem.litci "De".toList, clsWs 1 none],
   [clsName 1 none true],
   [clsWs 0 none, RItem.litci "CPF".toList]⟩

/-- Origin-name loop: first pattern whose stripped group is longer than
3 characters. -/
def nbOrigem (cl : List Char) : Option String :=
  let step : RPat → Option String := fun p =>
    (reSearch [p] cl).bind (fun r =>
      let nome := pyStripList r.2.1
      if 3 < nome.length then some (String.mk nome) else none)
  (step nbOrigemPat1).orElse (fun _ =>
    (step nbOrigemPat2).orElse (fun _ => step nbOrigemPat3))

/-- `OCRExtractor.extract_nubank_data`. -/
def extract_nubank_data (text : String) : ExtractedData :=
  let cleaned := helpers.correct_common_ocr_errors text
  let cl := cleaned.toList
  let valorOpt := nbValor cl
  let anaHit := pyIn "Ana Cleuma" cleaned
  let origem := nbOrigem cl
  { tipo_documento := some "transferencia",
    valor_total := valorOpt, valor_numerico := valorOpt,
    data := nbData cl, hora := nbHora cl,
    destino_nome := if anaHit then some "Ana Cleuma Sousa Dos Santos" else none,
    recebedor_nome := if anaHit then some "Ana Cleuma Sousa Dos Santos" else none,
    chave_pix := if anaHit then some "+5588994515533" else none,
    origem_nome := origem, pagador_nome := origem,
    situacao := some "Efetivado",
    origem_instituicao := some "Nubank",
    destino_instituicao := some "NU PAGAMENTOS - IP" }

/-- `OCRExtractor.extract_generic_data` (note: it works on the raw
argument, without a further OCR-correction pass). -/
def extract_generic_data (text : String) : ExtractedData :=
  let tl := text.toList
  let valorOpt : Option PyFloat :=
    (reSearchGroup1 [helpers.evwfPat1] tl).bind (fun g =>
      pyFloatList (replaceChar ',' '.' g))
  let lowerT := pyLower text
  let tipo :=
    if pyIn "pix" lowerT then "pix"
    else if pyIn "transferência" lowerT || pyIn "transferencia" lowerT then "transferencia"
    else if pyIn "boleto" lowerT then "boleto"
    else "generico"
  let ana := pyIn "Ana Cleuma" text
  { tipo_documento := some tipo,
    valor_total := valorOpt, valor_numerico := valorOpt,
    recebedor_nome := if ana then some "Ana Cleuma Sousa Dos Santos" else none,
    destino_nome := if ana then some "Ana Cleuma Sousa Dos Santos" else none }

/-- `OCRExtractor._extract_by_layout`.  `extract_caixa_data` and
`extract_bb_data` both immediately return `extract_generic_data`, which
is inlined here.  Only the Will-Bank extractor can raise; the other
branches are total and wrapped in `Except.ok`. -/
def _extract_by_layout (text layout : String) : Except String ExtractedData :=
  if layout = "will_bank" then extract_pix_will_bank_data text
  else if layout = "nubank" then Except.ok (extract_nubank_data text)
  else if layout = "caixa" then Except.ok (extract_generic_data text)
  else if layout = "bb" then Except.ok (extract_generic_data text)
  else Except.ok (extract_generic_data text)

/-- `OCRExtractor.extract_data` from the point where the OCR collaborator
has produced `raw_text` (image loading and Tesseract are outside the
embedding); `now` stands for `datetime.now().isoformat()`.  The model is
a total function, so nothing can escape the source's `try` box: the
whitespace-only branch is one error terminal; an exception raised by
per-layout extraction (the Will-Bank `IndexError` path) is caught by
the source's `except` and converted into an error dict with layout
marker `"erro"`, modelled by the `Except.error` branch. -/
def extract_data (raw_text : String) (image_path : Option String) (now : String) :
    ExtractedData :=
  if pyStrip raw_text = "" then
    { erro := some "Nenhum texto extraído da imagem",
      raw_text := some "", layout_detectado := some "vazio",
      arquivo := some (image_path.getD "unknown"), processado_em := some now }
  else
    let cleaned := helpers.correct_common_ocr_errors raw_text
    let layout := helpers.detect_document_layout cleaned
    match _extract_by_layout cleaned layout with
    | Except.ok d =>
        { d with
          raw_text := some raw_text, cleaned_text := some cleaned,
          layout_detectado := some layout,
          arquivo := some (image_path.getD "unknown"), processado_em := some now }
    | Except.error e =>
        { erro := some e,
          raw_text := some "", layout_detectado := some "erro",
          arquivo := some (image_path.getD "unknown"), processado_em := some now }

/-- `OCRExtractor.detect_document_layout`: the method copy of the layout
classifier kept inside `ocr/extractor.py` (its `nubank` branch also
accepts the bare keyword `'nubank'` and has no `'will bank'` guard). -/
def detect_document_layout (text : String) : String :=
  let t := pyLower text
  if pyIn "will bank" t || pyIn "willbank" t then "will_bank"
  else if pyIn "nu pagamentos" t || pyIn "nubank" t then "nubank"
  else if pyIn "caixa econômica" t || pyIn "caixa" t then "caixa"
  else if pyIn "banco do brasil" t then "bb"
  else if pyIn "bradesco" t then "bradesco"
  else if pyIn "itaú" t || pyIn "itau" t then "itau"
  else if pyIn "santander" t then "santander"
  else "generico"

/-- `OCRExtractor._parse_currency`: strip `R`, `$` and whitespace, then
the Brazilian-comma disambiguation, then `float()` with `ValueError`
mapped to `0.0`. -/
def _parse_currency (value_str : String) : PyFloat :=
  if value_str = "" then ⟨0, 0⟩
  else
    let cleaned := value_str.toList.filter (fun c => !(c == 'R' || c == '$' || pyIsSpace c))
    let normalized :=
      if cleaned.contains ',' && cleaned.contains '.' then
        replaceChar ',' '.' (cleaned.filter (fun c => !(c == '.')))
      else if cleaned.contains ',' then replaceChar ',' '.' cleaned
      else cleaned
    match pyFloatList normalized with
    | some v => v
    | none => ⟨0, 0⟩

end OCRExtractor

namespace helpers

structure StdParty where
  nome : String
  cpf : String
  instituicao : String
deriving DecidableEq

structure StdDestino where
  nome : String
  cpf : String
  instituicao : String
  chave_pix : String
deriving DecidableEq

structure StdDetalhes where
  id : String
  autenticacao : String
  situacao : String
  descricao : String
deriving DecidableEq

structure StdMeta where
  banco_detectado : String
  arquivo_origem : String
  processado_em : String
  confiabilidade : String
deriving DecidableEq

structure Standardized where
  id_unico : String
  tipo_transacao : String
  valor_formatado : String
  valor_numerico : PyFloat
  data_formatada : String
  hora_formatada : String
  origem : StdParty
  destino : StdDestino
  detalhes_transacao : StdDetalhes
  metadados : StdMeta
deriving DecidableEq

/-- `helpers.standardize_data_for_chatbot`; `stamp` stands for
`datetime.now().strftime('%Y%m%d_%H%M%S')` used in `id_unico`. -/
def standardize_data_for_chatbot (d : ExtractedData) (stamp : String) : Standardized :=
  let v := pyOrF (d.valor_total.getD ⟨0, 0⟩) (d.valor_numerico.getD ⟨0, 0⟩)
  { id_unico := (d.arquivo.getD "unknown") ++ "_" ++ stamp
    tipo_transacao := d.tipo_documento.getD "desconhecido"
    valor_formatado := format_currency v
    valor_numerico := v
    data_formatada := d.data.getD ""
    hora_formatada := d.hora.getD ""
    origem := { nome := pyOr (d.origem_nome.getD "") (d.pagador_nome.getD "")
                cpf := pyOr (d.origem_cpf.getD "") (d.pagador_cpf.getD "")
                instituicao := pyOr (d.origem_instituicao.getD "") (d.pagador_instituicao.getD "") }
    destino := { nome := pyOr (d.destino_nome.getD "") (d.recebedor_nome.getD "")
                 cpf := pyOr (d.destino_cpf.getD "") (d.recebedor_cpf.getD "")
                 instituicao := d.destino_instituicao.getD ""
                 chave_pix := d.chave_pix.getD "" }
    detalhes_transacao := { id := d.id_transacao.getD ""
                            autenticacao := d.autenticacao.getD ""
                            situacao := d.situacao.getD ""
                            descricao := d.descricao.getD "" }
    metadados := { banco_detectado := d.layout_detectado.getD ""
                   arquivo_origem := d.arquivo.getD ""
                   processado_em := d.processado_em.getD ""
                   confiabilidade := if PyFloat.lt ⟨0, 0⟩ (d.valor_total.getD ⟨0, 0⟩) then "alta" else "baixa" } }

end helpers

namespace main

structure CbResumo where
  tipo : String
  valor : String
  valor_numerico : PyFloat
  data_completa : String
  status : String
deriving DecidableEq

structure CbParte where
  nome_completo : String
  documento : String
  banco : String
  tipo_pessoa : String
deriving DecidableEq

structure CbDestino where
  nome_completo : String
  documento : String
  banco : String
  chave_pix : String
  tipo_pessoa : String
deriving DecidableEq

structure CbDetalhesOp where
  codigo_transacao : String
  codigo_autenticacao : String
  descricao_operacao : String
  tipo_operacao : String
  canal_utilizado : String
deriving DecidableEq

structure CbValidacoes where
  padroes_reconhecidos : List String
  alertas : List String
  score_confianca : ℚ
deriving DecidableEq

structure CbMetaSistema where
  arquivo_fonte : String
  data_processamento : String
  nivel_confianca : String
  validacoes : CbValidacoes
deriving DecidableEq

structure CbConsultas where
  query_valor : String
  query_destinatario : String
  query_data : String
  query_tipo : String
  tags_busca : List String
deriving DecidableEq

structure ChatbotData where
  id_transacao : String
  resumo : CbResumo
  participantes_origem : CbParte
  participantes_destino : CbDestino
  detalhes_operacao : CbDetalhesOp
  metadados_sistema : CbMetaSistema
  consultas_chatbot : CbConsultas
deriving DecidableEq

/-- `main.create_chatbot_ready_data`, built on
`standardize_data_for_chatbot` and `validate_specific_patterns`;
`stamp` is threaded to the standardizer's `id_unico`. -/
def create_chatbot_ready_data (d : ExtractedData) (stamp : String) : ChatbotData :=
  let s := helpers.standardize_data_for_chatbot d stamp
  let pv := helpers.validate_specific_patterns d
  { id_transacao := s.id_unico
    resumo := { tipo := s.tipo_transacao
                valor := s.valor_formatado
                valor_numerico := s.valor_numerico
                data_completa := pyStrip (s.data_formatada ++ " " ++ s.hora_formatada)
                status := d.situacao.getD "Processado" }
    participantes_origem :=
      { nome_completo := s.origem.nome
        documento := s.origem.cpf
        banco := s.origem.instituicao
        tipo_pessoa := if s.origem.cpf ≠ "" then "PF" else "PJ" }
    participantes_destino :=
      { nome_completo := s.destino.nome
        documento := s.destino.cpf
        banco := s.destino.instituicao
        chave_pix := s.destino.chave_pix
        tipo_pessoa := if s.destino.cpf ≠ "" then "PF" else "PJ" }
    detalhes_operacao :=
      { codigo_transacao := s.detalhes_transacao.id
        codigo_autenticacao := s.detalhes_transacao.autenticacao
        descricao_operacao := s.detalhes_transacao.descricao
        tipo_operacao := if pyIn "pix" (pyLower s.tipo_transacao) then "PIX" else "Transferência"
        canal_utilizado := pyTitle (pyReplace s.metadados.banco_detectado "_" " ") }
    metadados_sistema :=
      { arquivo_fonte := s.metadados.arquivo_origem
        data_processamento := s.metadados.processado_em
        nivel_confianca := s.metadados.confiabilidade
        validacoes := { padroes_reconhecidos := pv.matchesL
                        alertas := pv.mismatches
                        score_confianca := pv.confidence } }
    consultas_chatbot :=
      { query_valor := "transação de " ++ s.valor_formatado
        query_destinatario := "pagamento para " ++ s.destino.nome
        query_data := "operação em " ++ s.data_formatada
        query_tipo := s.tipo_transacao ++ " via " ++ s.metadados.banco_detectado
        tags_busca := [pyLower s.tipo_transacao,
                       s.metadados.banco_detectado,
                       if s.destino.nome ≠ "" then pyLower s.destino.nome else "",
                       if PyFloat.lt ⟨0, 0⟩ s.valor_numerico then "valor_" ++ String.mk (natToDecStr s.valor_numerico.truncInt.toNat) else ""] }
  }

end main

/-! ## Statement-support definitions -/

/-- The comma/dot swap effected by the three-step replace chain of
`format_currency` on strings not containing `'X'`. -/
def swapCD (c : Char) : Char :=
  if c = ',' then '.' else if c = '.' then ',' else c

/-- The keyword signatures tested by `helpers.detect_document_layout`
(in its branch order). -/
def layoutKeywords : List String :=
  ["will bank", "willbank", "nu pagamentos", "caixa econômica", "caixa",
   "banco do brasil", "bradesco", "itaú", "itau", "santander"]

/-- Some layout signature occurs in the (lower-cased) text. -/
def anySignature (text : String) : Bool :=
  layoutKeywords.any (fun k => pyIn k (pyLower text))

/-- The labels `helpers.detect_document_layout` can return. -/
def layoutLabels : List String :=
  ["will_bank", "nubank", "caixa", "bb", "bradesco", "itau", "santander", "generico"]

/-- The Will-Bank extraction result on the concrete Antonio witness
text (it extracts without raising there; the fallback is never taken
and only makes the definition total). -/
def wbAntonioExample : ExtractedData :=
  match OCRExtractor.extract_pix_will_bank_data "De Antonio Valmi R$ 99,99 01/01/2000" with
  | Except.ok d => d
  | Except.error _ => {}

/-- The Will-Bank extraction result on the concrete Sheila witness
text. -/
def wbSheilaExample : ExtractedData :=
  match OCRExtractor.extract_pix_will_bank_data "De Sheila Fernandes R$ 99,99" with
  | Except.ok d => d
  | Except.error _ => {}

/-- The raw text of the spec's end-to-end Will-Bank scenario: it
contains `"Will Bank"`, `"Para Ana Cleuma Sousa Dos Santos"`,
`"R$ 33,00"`, `"20/05/2025"` and `"17:51:22"`. -/
def scenarioText : String :=
  "Will Bank\nPara Ana Cleuma Sousa Dos Santos CPF/CNPJ ***,120.983-**\nR$ 33,00\n20/05/2025 17:51:22"

/-! ## Lemmas: characters and digits -/

theorem ne_of_isDigit {c x : Char} (h : c.isDigit = true) (hx : x.isDigit = false) : c ≠ x := by
  intro e
  subst e
  rw [h] at hx
  cases hx

theorem digitChar_isDigit (d : ℕ) : (digitChar d).isDigit = true := by
  have hk : d % 10 < 10 := Nat.mod_lt _ (by omega)
  unfold digitChar
  set k := d % 10 with hkdef
  interval_cases k <;> decide

theorem digitVal_digitChar (d : ℕ) : digitVal (digitChar d) = d % 10 := by
  have hk : d % 10 < 10 := Nat.mod_lt _ (by omega)
  unfold digitChar
  rw [show digitVal = fun c => c.toNat - 48 from rfl]
  set k := d % 10 with hkdef
  interval_cases k <;> decide

theorem digit_not_space {c : Char} (h : c.isDigit = true) : pyIsSpace c = false := by
  unfold pyIsSpace
  simp only [Bool.or_eq_false_iff, beq_eq_false_iff_ne]
  exact ⟨⟨⟨⟨⟨ne_of_isDigit h (by decide), ne_of_isDigit h (by decide)⟩,
    ne_of_isDigit h (by decide)⟩, ne_of_isDigit h (by decide)⟩,
    ne_of_isDigit h (by decide)⟩, ne_of_isDigit h (by decide)⟩

theorem digit_keep {c : Char} (h : c.isDigit = true) :
    (!(c == 'R' || c == '$' || pyIsSpace c)) = true := by
  simp only [Bool.not_eq_true', Bool.or_eq_false_iff, beq_eq_false_iff_ne]
  exact ⟨⟨ne_of_isDigit h (by decide), ne_of_isDigit h (by decide)⟩, digit_not_space h⟩

theorem sep_keep {c : Char} (h : c = '.' ∨ c = ',') :
    (!(c == 'R' || c == '$' || pyIsSpace c)) = true := by
  rcases h with rfl | rfl <;> decide

/-! ## Lemmas: decimal rendering -/

theorem digitsVal_append_singleton (xs : List Char) (c : Char) :
    digitsVal (xs ++ [c]) = 10 * digitsVal xs + digitVal c := by
  unfold digitsVal
  rw [List.foldl_append]
  rfl

theorem natToDecGo_spec :
    ∀ fuel n, n < fuel →
      digitsVal (natToDecGo fuel n) = n ∧
      (∀ c ∈ natToDecGo fuel n, c.isDigit = true) ∧
      natToDecGo fuel n ≠ [] := by
  intro fuel
  induction fuel with
  | zero => intro n h; omega
  | succ f ih =>
      intro n h
      by_cases h10 : n < 10
      · refine ⟨?_, ?_, ?_⟩
        · rw [show natToDecGo (f + 1) n = [digitChar n] by simp [natToDecGo, h10]]
          unfold digitsVal
          simp only [List.foldl_cons, List.foldl_nil]
          rw [show (10 : ℕ) * 0 = 0 from rfl, digitVal_digitChar]
          omega
        · intro c hc
          rw [show natToDecGo (f + 1) n = [digitChar n] by simp [natToDecGo, h10]] at hc
          rw [List.mem_singleton.mp hc]
          exact digitChar_isDigit n
        · rw [show natToDecGo (f + 1) n = [digitChar n] by simp [natToDecGo, h10]]
          simp
      · have hrec := ih (n / 10) (by omega)
        refine ⟨?_, ?_, ?_⟩
        · rw [show natToDecGo (f + 1) n = natToDecGo f (n / 10) ++ [digitChar (n % 10)] by
            simp [natToDecGo, h10]]
          rw [digitsVal_append_singleton, hrec.1, digitVal_digitChar]
          omega
        · intro c hc
          rw [show natToDecGo (f + 1) n = natToDecGo f (n / 10) ++ [digitChar (n % 10)] by
            simp [natToDecGo, h10]] at hc
          rcases List.mem_append.mp hc with h1 | h2
          · exact hrec.2.1 c h1
          · rw [List.mem_singleton.mp h2]
            exact digitChar_isDigit _
        · rw [show natToDecGo (f + 1) n = natToDecGo f (n / 10) ++ [digitChar (n % 10)] by
            simp [natToDecGo, h10]]
          simp

theorem digitsVal_natToDecStr (n : ℕ) : digitsVal (natToDecStr n) = n :=
  (natToDecGo_spec (n + 1) n (by omega)).1

theorem natToDecStr_digits (n : ℕ) : ∀ c ∈ natToDecStr n, c.isDigit = true :=
  (natToDecGo_spec (n + 1) n (by omega)).2.1

theorem natToDecStr_ne_nil (n : ℕ) : natToDecStr n ≠ [] :=
  (natToDecGo_spec (n + 1) n (by omega)).2.2

theorem pad2_digits (b : ℕ) : ∀ c ∈ pad2 b, c.isDigit = true := by
  intro c hc
  simp only [pad2, List.mem_cons, List.not_mem_nil, or_false] at hc
  rcases hc with h | h <;> rw [h] <;> exact digitChar_isDigit _

theorem digitsVal_pad2 {b : ℕ} (hb : b < 100) : digitsVal (pad2 b) = b := by
  unfold pad2 digitsVal
  simp only [List.foldl_cons, List.foldl_nil]
  rw [show (0 : ℕ) * 10 = 0 from rfl]
  rw [digitVal_digitChar, digitVal_digitChar]
  omega

/-! ## Lemmas: list splitting and grouping -/

theorem takeWhile_append_stop (p : Char → Bool) :
    ∀ (l : List Char), (∀ x ∈ l, p x = true) → ∀ (c : Char), p c = false → ∀ (r : List Char),
      (l ++ c :: r).takeWhile p = l := by
  intro l
  induction l with
  | nil => intro _ c hc r; simp [List.takeWhile_cons, hc]
  | cons a as ih =>
      intro hl c hc r
      have ha : p a = true := hl a (List.mem_cons_self a as)
      simp only [List.cons_append, List.takeWhile_cons, ha]
      rw [ih (fun x hx => hl x (List.mem_cons_of_mem a hx)) c hc r]
      simp

theorem dropWhile_append_stop (p : Char → Bool) :
    ∀ (l : List Char), (∀ x ∈ l, p x = true) → ∀ (c : Char), p c = false → ∀ (r : List Char),
      (l ++ c :: r).dropWhile p = c :: r := by
  intro l
  induction l with
  | nil => intro _ c hc r; simp [List.dropWhile_cons, hc]
  | cons a as ih =>
      intro hl c hc r
      have ha : p a = true := hl a (List.mem_cons_self a as)
      simp only [List.cons_append, List.dropWhile_cons, ha]
      rw [ih (fun x hx => hl x (List.mem_cons_of_mem a hx)) c hc r]
      simp

theorem dropWhile_all_false (p : Char → Bool) :
    ∀ (l : List Char), (∀ x ∈ l, p x = false) → l.dropWhile p = l := by
  intro l hl
  cases l with
  | nil => rfl
  | cons a as =>
      simp [List.dropWhile_cons, hl a (List.mem_cons_self a as)]

/-- `str.strip()` leaves a list of non-whitespace characters unchanged. -/
theorem pyStripList_id {l : List Char} (h : ∀ c ∈ l, pyIsSpace c = false) :
    pyStripList l = l := by
  unfold pyStripList
  rw [dropWhile_all_false _ l h]
  rw [dropWhile_all_false _ l.reverse (fun c hc => h c (List.mem_reverse.mp hc))]
  exact List.reverse_reverse l

theorem group3Rev_filter (sep : Char) :
    ∀ l : List Char, (∀ c ∈ l, (c == sep) = false) →
      (group3Rev sep l).filter (fun c => !(c == sep)) = l := by
  intro l
  induction l using group3Rev.induct sep with
  | case1 a b c d rest ih =>
      intro h
      rw [show group3Rev sep (a :: b :: c :: d :: rest) =
          a :: b :: c :: sep :: group3Rev sep (d :: rest) from rfl]
      have ha := h a (by simp)
      have hb := h b (by simp)
      have hc := h c (by simp)
      simp only [List.filter_cons, ha, hb, hc, Bool.not_false, BEq.refl, Bool.not_true]
      rw [ih (fun x hx => h x (by simp at hx ⊢; tauto))]
      simp
  | case2 l hne =>
      intro h
      rw [show group3Rev sep l = l from by unfold group3Rev; split <;> first | rfl | (exfalso; exact hne _ _ _ _ _ rfl)]
      exact List.filter_eq_self.mpr (fun a ha => by simp [h a ha])

theorem group3Rev_short (sep : Char) {l : List Char} (h : l.length ≤ 3) :
    group3Rev sep l = l := by
  rcases l with _ | ⟨a, _ | ⟨b, _ | ⟨c, _ | ⟨d, r⟩⟩⟩⟩ <;>
    first
      | rfl
      | (exfalso; simp at h)

theorem group3_short (sep : Char) {l : List Char} (h : l.length ≤ 3) :
    group3 sep l = l := by
  unfold group3
  rw [group3Rev_short sep (by simpa using h)]
  exact List.reverse_reverse l

theorem group3Rev_sep_mem (sep : Char) {l : List Char} (h : 4 ≤ l.length) :
    sep ∈ group3Rev sep l := by
  rcases l with _ | ⟨a, _ | ⟨b, _ | ⟨c, _ | ⟨d, r⟩⟩⟩⟩ <;> simp only [List.length_nil,
    List.length_cons] at h ⊢ <;> try omega
  rw [show group3Rev sep (a :: b :: c :: d :: r) =
      a :: b :: c :: sep :: group3Rev sep (d :: r) from rfl]
  simp

theorem group3_sep_mem (sep : Char) {l : List Char} (h : 4 ≤ l.length) :
    sep ∈ group3 sep l := by
  unfold group3
  rw [List.mem_reverse]
  exact group3Rev_sep_mem sep (by simpa using h)

theorem group3Rev_mem (sep : Char) :
    ∀ l : List Char, ∀ c ∈ group3Rev sep l, c = sep ∨ c ∈ l := by
  intro l
  induction l using group3Rev.induct sep with
  | case1 a b c d rest ih =>
      intro x hx
      rw [show group3Rev sep (a :: b :: c :: d :: rest) =
          a :: b :: c :: sep :: group3Rev sep (d :: rest) from rfl] at hx
      simp only [List.mem_cons] at hx ⊢
      rcases hx with rfl | rfl | rfl | rfl | hx
      · tauto
      · tauto
      · tauto
      · tauto
      · rcases ih x hx with h | h
        · tauto
        · simp at h; tauto
  | case2 l hne =>
      intro x hx
      rw [show group3Rev sep l = l from by
        unfold group3Rev; split <;> first | rfl | (exfalso; exact hne _ _ _ _ _ rfl)] at hx
      exact Or.inr hx

theorem group3_mem (sep : Char) (l : List Char) :
    ∀ c ∈ group3 sep l, c = sep ∨ c ∈ l := by
  intro c hc
  unfold group3 at hc
  rw [List.mem_reverse] at hc
  rcases group3Rev_mem sep l.reverse c hc with h | h
  · exact Or.inl h
  · exact Or.inr (List.mem_reverse.mp h)

theorem group3_filter (sep : Char) {l : List Char} (h : ∀ c ∈ l, (c == sep) = false) :
    (group3 sep l).filter (fun c => !(c == sep)) = l := by
  unfold group3
  rw [List.filter_reverse]
  rw [group3Rev_filter sep l.reverse (fun c hc => h c (List.mem_reverse.mp hc))]
  exact List.reverse_reverse l

/-! ## Lemmas: decimal length bounds -/

theorem natToDecGo_len_le :
    ∀ fuel n k, n < fuel → n < 10 ^ k → 0 < k → (natToDecGo fuel n).length ≤ k := by
  intro fuel
  induction fuel with
  | zero => intro n k h; omega
  | succ f ih =>
      intro n k h hk hkpos
      by_cases h10 : n < 10
      · rw [show natToDecGo (f + 1) n = [digitChar n] by simp [natToDecGo, h10]]
        simpa using hkpos
      · rw [show natToDecGo (f + 1) n = natToDecGo f (n / 10) ++ [digitChar (n % 10)] by
          simp [natToDecGo, h10]]
        have hk2 : 2 ≤ k := by
          by_contra hlt
          interval_cases k
          all_goals omega
        have hdiv : n / 10 < 10 ^ (k - 1) := by
          rw [Nat.div_lt_iff_lt_mul (by norm_num)]
          calc n < 10 ^ k := hk
          _ = 10 ^ (k - 1) * 10 := by
              rw [← pow_succ]
              congr 1
              omega
        have := ih (n / 10) (k - 1) (by omega) hdiv (by omega)
        simp only [List.length_append, List.length_singleton]
        omega

theorem natToDecGo_len_ge :
    ∀ fuel n k, n < fuel → 10 ^ k ≤ n → k + 1 ≤ (natToDecGo fuel n).length := by
  intro fuel
  induction fuel with
  | zero => intro n k h; omega
  | succ f ih =>
      intro n k h hk
      by_cases h10 : n < 10
      · rw [show natToDecGo (f + 1) n = [digitChar n] by simp [natToDecGo, h10]]
        have : k = 0 := by
          by_contra hne
          have : 10 ≤ 10 ^ k := by
            calc (10 : ℕ) = 10 ^ 1 := by norm_num
            _ ≤ 10 ^ k := Nat.pow_le_pow_right (by norm_num) (by omega)
          omega
        simp [this]
      · rw [show natToDecGo (f + 1) n = natToDecGo f (n / 10) ++ [digitChar (n % 10)] by
          simp [natToDecGo, h10]]
        simp only [List.length_append, List.length_singleton]
        rcases Nat.eq_zero_or_pos k with rfl | hkpos
        · have h1 := (natToDecGo_spec f (n / 10) (by omega)).2.2
          have : 0 < (natToDecGo f (n / 10)).length := List.length_pos.mpr h1
          omega
        · have hpow : 10 ^ (k - 1) * 10 = 10 ^ k := by
            rw [← pow_succ]
            congr 1
            omega
          have hdiv : 10 ^ (k - 1) ≤ n / 10 := by
            rw [Nat.le_div_iff_mul_le (by norm_num), hpow]
            exact hk
          have := ih (n / 10) (k - 1) (by omega) hdiv
          omega

/-! ## Lemmas: the float parser on well-formed decimals -/

theorem pyFloatCore_decimal (ds fs : List Char) (hd : ds ≠ [])
    (h1 : ∀ c ∈ ds, c.isDigit = true) (h2 : ∀ c ∈ fs, c.isDigit = true) :
    pyFloatCore (ds ++ '.' :: fs) =
      some ⟨(digitsVal ds : ℤ) * (10 : ℤ) ^ fs.length + (digitsVal fs : ℤ), fs.length⟩ := by
  unfold pyFloatCore
  simp only [takeWhile_append_stop Char.isDigit ds h1 '.' (by decide) fs,
    dropWhile_append_stop Char.isDigit ds h1 '.' (by decide) fs]
  rw [if_pos trivial, if_pos]
  exact ⟨List.all_eq_true.mpr h2, Or.inl hd⟩

theorem pyFloatList_decimal (ds fs : List Char) (hd : ds ≠ [])
    (h1 : ∀ c ∈ ds, c.isDigit = true) (h2 : ∀ c ∈ fs, c.isDigit = true) :
    pyFloatList (ds ++ '.' :: fs) =
      some ⟨(digitsVal ds : ℤ) * (10 : ℤ) ^ fs.length + (digitsVal fs : ℤ), fs.length⟩ := by
  rcases ds with _ | ⟨d, ds'⟩
  · exact absurd rfl hd
  · rw [List.cons_append]
    simp only [pyFloatList]
    rw [if_neg (ne_of_isDigit (h1 d (List.mem_cons_self d ds'))
      (show ('-' : Char).isDigit = false by decide))]
    rw [← List.cons_append]
    exact pyFloatCore_decimal (d :: ds') fs hd h1 h2

/-! ## Lemmas: `_parse_currency` on Brazilian-formatted strings -/

theorem digit_beq_dot_false {c : Char} (h : c.isDigit = true) : (c == '.') = false :=
  beq_eq_false_iff_ne.mpr (ne_of_isDigit h (by decide))

theorem digit_beq_comma_false {c : Char} (h : c.isDigit = true) : (c == ',') = false :=
  beq_eq_false_iff_ne.mpr (ne_of_isDigit h (by decide))

theorem replaceChar_of_not_mem {a b : Char} {l : List Char} (h : ∀ c ∈ l, c ≠ a) :
    replaceChar a b l = l := by
  unfold replaceChar
  rw [List.map_congr_left
    (show ∀ c ∈ l, (if c = a then b else c) = id c from fun c hc => if_neg (h c hc))]
  exact List.map_id l

theorem replaceChar_append (a b : Char) (l r : List Char) :
    replaceChar a b (l ++ r) = replaceChar a b l ++ replaceChar a b r := by
  unfold replaceChar
  exact List.map_append _ l r

theorem keep_of_digit_or_sep {l : List Char}
    (h : ∀ c ∈ l, c.isDigit = true ∨ c = '.' ∨ c = ',') :
    l.filter (fun c => !(c == 'R' || c == '$' || pyIsSpace c)) = l := by
  refine List.filter_eq_self.mpr (fun c hc => ?_)
  rcases h c hc with hd | hs
  · exact digit_keep hd
  · exact sep_keep hs

theorem group3_natToDecStr_chars (a : ℕ) :
    ∀ c ∈ group3 '.' (natToDecStr a), c.isDigit = true ∨ c = '.' ∨ c = ',' := by
  intro c hc
  rcases group3_mem '.' (natToDecStr a) c hc with h | h
  · exact Or.inr (Or.inl h)
  · exact Or.inl (natToDecStr_digits a c h)

theorem contains_iff_mem {l : List Char} {c : Char} : l.contains c = true ↔ c ∈ l := by
  induction l with
  | nil => simp
  | cons a as ih =>
      simp only [List.contains_cons, Bool.or_eq_true, beq_iff_eq, List.mem_cons, ih]

/-- The core of `_parse_currency` on an input whose relevant part is a
dot-grouped integer, a comma, and two cents digits; `pre` is any prefix
that the `[R$\s]` strip removes entirely. -/
theorem parse_currency_core (a b : ℕ) (hb : b < 100) (pre : List Char)
    (hpre : pre.filter (fun c => !(c == 'R' || c == '$' || pyIsSpace c)) = []) :
    OCRExtractor._parse_currency
        (String.mk (pre ++ (group3 '.' (natToDecStr a) ++ ',' :: pad2 b))) =
      ⟨(a : ℤ) * 100 + (b : ℤ), 2⟩ := by
  have hds_digits := natToDecStr_digits a
  have hds_ne := natToDecStr_ne_nil a
  have hlne : pre ++ (group3 '.' (natToDecStr a) ++ ',' :: pad2 b) ≠ [] := by
    intro h
    rcases List.append_eq_nil.mp h with ⟨-, h2⟩
    rcases List.append_eq_nil.mp h2 with ⟨-, h3⟩
    exact List.cons_ne_nil _ _ h3
  unfold OCRExtractor._parse_currency
  rw [if_neg (by
    intro h
    rw [String.ext_iff] at h
    exact hlne h)]
  have htl : (String.mk (pre ++ (group3 '.' (natToDecStr a) ++ ',' :: pad2 b))).toList
      = pre ++ (group3 '.' (natToDecStr a) ++ ',' :: pad2 b) := rfl
  rw [htl]
  have hclean : (pre ++ (group3 '.' (natToDecStr a) ++ ',' :: pad2 b)).filter
      (fun c => !(c == 'R' || c == '$' || pyIsSpace c))
      = group3 '.' (natToDecStr a) ++ ',' :: pad2 b := by
    rw [List.filter_append, hpre, List.nil_append]
    refine keep_of_digit_or_sep (fun c hc => ?_)
    rcases List.mem_append.mp hc with h | h
    · exact group3_natToDecStr_chars a c h
    · rcases List.mem_cons.mp h with rfl | h
      · exact Or.inr (Or.inr rfl)
      · exact Or.inl (pad2_digits b c h)
  rw [hclean]
  have hcomma : (group3 '.' (natToDecStr a) ++ ',' :: pad2 b).contains ',' = true :=
    contains_iff_mem.mpr (List.mem_append.mpr (Or.inr (List.mem_cons_self _ _)))
  by_cases hdot : (group3 '.' (natToDecStr a) ++ ',' :: pad2 b).contains '.' = true
  · simp only [hcomma, hdot, Bool.and_self, if_true]
    have hfilter : (group3 '.' (natToDecStr a) ++ ',' :: pad2 b).filter (fun c => !(c == '.'))
        = natToDecStr a ++ ',' :: pad2 b := by
      rw [List.filter_append]
      rw [group3_filter '.' (fun c hc => digit_beq_dot_false (hds_digits c hc))]
      congr 1
      rw [List.filter_cons]
      simp only [show ((',' : Char) == '.') = false by decide, Bool.not_false, if_true]
      rw [List.filter_eq_self.mpr (fun c hc => by
        simp [digit_beq_dot_false (pad2_digits b c hc)])]
    rw [hfilter]
    have hrepl : replaceChar ',' '.' (natToDecStr a ++ ',' :: pad2 b)
        = natToDecStr a ++ '.' :: pad2 b := by
      rw [replaceChar_append]
      rw [replaceChar_of_not_mem (fun c hc => ne_of_isDigit (hds_digits c hc) (by decide))]
      congr 1
      show (if ',' = ',' then '.' else ',') :: replaceChar ',' '.' (pad2 b) = '.' :: pad2 b
      rw [if_pos rfl]
      rw [replaceChar_of_not_mem (fun c hc => ne_of_isDigit (pad2_digits b c hc) (by decide))]
    rw [hrepl]
    rw [pyFloatList_decimal (natToDecStr a) (pad2 b) hds_ne hds_digits (pad2_digits b)]
    simp only [digitsVal_natToDecStr, digitsVal_pad2 hb,
      show (pad2 b).length = 2 from rfl]
    norm_num
  · have hgshort : group3 '.' (natToDecStr a) = natToDecStr a := by
      refine group3_short '.' ?_
      by_contra hlen
      exact hdot (contains_iff_mem.mpr
        (List.mem_append.mpr (Or.inl (group3_sep_mem '.' (by omega)))))
    have hdot' : (group3 '.' (natToDecStr a) ++ ',' :: pad2 b).contains '.' = false :=
      Bool.eq_false_iff.mpr hdot
    simp only [hcomma, hdot', Bool.and_false, Bool.false_eq_true, if_false, if_true]
    rw [hgshort]
    have hrepl : replaceChar ',' '.' (natToDecStr a ++ ',' :: pad2 b)
        = natToDecStr a ++ '.' :: pad2 b := by
      rw [replaceChar_append]
      rw [replaceChar_of_not_mem (fun c hc => ne_of_isDigit (hds_digits c hc) (by decide))]
      congr 1
      show (if ',' = ',' then '.' else ',') :: replaceChar ',' '.' (pad2 b) = '.' :: pad2 b
      rw [if_pos rfl]
      rw [replaceChar_of_not_mem (fun c hc => ne_of_isDigit (pad2_digits b c hc) (by decide))]
    rw [hrepl]
    rw [pyFloatList_decimal (natToDecStr a) (pad2 b) hds_ne hds_digits (pad2_digits b)]
    simp only [digitsVal_natToDecStr, digitsVal_pad2 hb,
      show (pad2 b).length = 2 from rfl]
    norm_num

/-! ## Lemmas: `format_currency` -/

theorem roundHE_exact (m : ℤ) : PyFloat.roundHE ⟨m * 100, 2⟩ = m := by
  unfold PyFloat.roundHE
  simp only [show ((10 : ℤ) ^ (2 : ℕ)) = 100 by norm_num]
  rw [Int.mul_fdiv_cancel m (by norm_num)]
  simp

theorem swapCD_digit {c : Char} (h : c.isDigit = true) : swapCD c = c := by
  unfold swapCD
  rw [if_neg (ne_of_isDigit h (by decide)), if_neg (ne_of_isDigit h (by decide))]

theorem replace_chain {l : List Char} (h : 'X' ∉ l) :
    replaceChar 'X' '.' (replaceChar '.' ',' (replaceChar ',' 'X' l)) = l.map swapCD := by
  unfold replaceChar
  rw [List.map_map, List.map_map]
  refine List.map_congr_left (fun c hc => ?_)
  simp only [Function.comp_apply]
  unfold swapCD
  by_cases h1 : c = ','
  · subst h1; decide
  · by_cases h2 : c = '.'
    · subst h2; decide
    · have h3 : c ≠ 'X' := fun e => h (e ▸ hc)
      simp only [if_neg h1, if_neg h2, if_neg h3]

theorem group3Rev_map (f : Char → Char) (sep : Char) :
    ∀ l : List Char, List.map f (group3Rev sep l) = group3Rev (f sep) (List.map f l) := by
  intro l
  induction l using group3Rev.induct sep with
  | case1 a b c d rest ih =>
      rw [show group3Rev sep (a :: b :: c :: d :: rest) =
          a :: b :: c :: sep :: group3Rev sep (d :: rest) from rfl]
      rw [show List.map f (a :: b :: c :: d :: rest) =
          f a :: f b :: f c :: f d :: List.map f rest from rfl]
      rw [show group3Rev (f sep) (f a :: f b :: f c :: f d :: List.map f rest) =
          f a :: f b :: f c :: f sep :: group3Rev (f sep) (f d :: List.map f rest) from rfl]
      simp only [List.map_cons]
      rw [show List.map f (d :: rest) = f d :: List.map f rest from rfl] at ih
      rw [ih]
  | case2 l hne =>
      have hlen : l.length ≤ 3 := by
        rcases l with _ | ⟨a, _ | ⟨b, _ | ⟨c, _ | ⟨d, r⟩⟩⟩⟩ <;>
          simp only [List.length_nil, List.length_cons] <;>
          first
            | omega
            | exact absurd rfl (hne a b c d r)
      rw [group3Rev_short sep hlen, group3Rev_short (f sep) (by simpa using hlen)]

theorem group3_map (f : Char → Char) (sep : Char) (l : List Char) :
    List.map f (group3 sep l) = group3 (f sep) (List.map f l) := by
  unfold group3
  rw [List.map_reverse, group3Rev_map, List.map_reverse]

theorem format_currency_cents (n : ℕ) :
    helpers.format_currency ⟨(n : ℤ), 2⟩ =
      String.mk ("R$ ".toList ++ (group3 '.' (natToDecStr (n / 100)) ++ ',' :: pad2 (n % 100))) := by
  have hds_digits := natToDecStr_digits (n / 100)
  unfold helpers.format_currency
  simp only [show PyFloat.mul100 ⟨(n : ℤ), 2⟩ = ⟨(n : ℤ) * 100, 2⟩ from rfl,
    roundHE_exact]
  rw [if_neg (by exact_mod_cast Int.not_lt.mpr (Int.ofNat_nonneg n))]
  simp only [Int.natAbs_ofNat, List.nil_append, List.append_nil]
  have hX : 'X' ∉ ['R', '$', ' '] ++ group3 ',' (natToDecStr ((n : ℕ) / 100)) ++
      '.' :: pad2 ((n : ℕ) % 100) := by
    intro hmem
    rcases List.mem_append.mp hmem with hmem | hmem
    · rcases List.mem_append.mp hmem with hmem | hmem
      · simp at hmem
      · rcases group3_mem ',' _ _ hmem with h | h
        · cases h
        · exact absurd rfl (ne_of_isDigit (hds_digits _ h) (by decide)).symm
    · rcases List.mem_cons.mp hmem with h | h
      · cases h
      · exact absurd rfl (ne_of_isDigit (pad2_digits _ _ h) (by decide)).symm
  rw [replace_chain hX]
  congr 1
  simp only [List.map_append, List.map_cons]
  rw [group3_map]
  rw [List.map_congr_left (show ∀ c ∈ natToDecStr (n / 100), swapCD c = id c from
    fun c hc => swapCD_digit (hds_digits c hc))]
  rw [List.map_id]
  rw [List.map_congr_left (show ∀ c ∈ pad2 (n % 100), swapCD c = id c from
    fun c hc => swapCD_digit (pad2_digits _ c hc))]
  rw [List.map_id]
  rfl

/-! ## Lemmas: `PyFloat` values -/

theorem PyFloat.toQ_cents (m : ℤ) : PyFloat.toQ ⟨m, 2⟩ = (m : ℚ) / 100 := by
  unfold PyFloat.toQ
  norm_num

theorem PyFloat.le_toQ {x y : PyFloat} (h : PyFloat.le x y = true) : x.toQ ≤ y.toQ := by
  unfold PyFloat.le at h
  rw [decide_eq_true_iff] at h
  unfold PyFloat.toQ
  rw [div_le_div_iff₀ (by positivity) (by positivity)]
  calc (x.m : ℚ) * (10 : ℚ) ^ y.e = ((x.m * (10 : ℤ) ^ y.e : ℤ) : ℚ) := by push_cast; ring
  _ ≤ ((y.m * (10 : ℤ) ^ x.e : ℤ) : ℚ) := by exact_mod_cast h
  _ = (y.m : ℚ) * (10 : ℚ) ^ x.e := by push_cast; ring

/-- Bound used by the confidence score: a ratio of a part to a whole is
in `[0, 1]`. -/
theorem ratio_bounds (a b : ℕ) :
    0 ≤ (if 0 < a + b then (a : ℚ) / ((a + b : ℕ) : ℚ) else 0) ∧
    (if 0 < a + b then (a : ℚ) / ((a + b : ℕ) : ℚ) else 0) ≤ 1 := by
  rcases Nat.eq_zero_or_pos (a + b) with hz | hp
  · rw [if_neg (by omega)]
    norm_num
  · rw [if_pos hp]
    constructor
    · positivity
    · rw [div_le_one (by exact_mod_cast hp)]
      exact_mod_cast Nat.le_add_right a b

set_option maxRecDepth 100000

/-! ## Claim theorems -/

/-- C1 (corrected): for empty or whitespace-only input the pipeline
(`extract_data`) does return an error Receipt without raising (the model
is a total function), and no payer/payee field is populated — but the
error Receipt carries the layout marker `"vazio"`, not `Generic`
(`"generico"`), and `valor_numerico` is absent from the dict rather than
equal to `0`. -/
theorem C1_empty_input_error_receipt (s : String) (path : Option String) (now : String)
    (h : pyStrip s = "") :
    (OCRExtractor.extract_data s path now).erro = some "Nenhum texto extraído da imagem" ∧
    (OCRExtractor.extract_data s path now).layout_detectado = some "vazio" ∧
    (OCRExtractor.extract_data s path now).layout_detectado ≠ some "generico" ∧
    (OCRExtractor.extract_data s path now).valor_numerico = none ∧
    (OCRExtractor.extract_data s path now).valor_total = none ∧
    (OCRExtractor.extract_data s path now).origem_nome = none ∧
    (OCRExtractor.extract_data s path now).pagador_nome = none ∧
    (OCRExtractor.extract_data s path now).destino_nome = none ∧
    (OCRExtractor.extract_data s path now).recebedor_nome = none ∧
    (OCRExtractor.extract_data s path now).origem_cpf = none ∧
    (OCRExtractor.extract_data s path now).destino_cpf = none := by
  unfold OCRExtractor.extract_data
  rw [if_pos h]
  refine ⟨rfl, rfl, ?_, rfl, rfl, rfl, rfl, rfl, rfl, rfl, rfl⟩
  intro hcontra
  exact absurd (Option.some.inj hcontra) (by decide)

/-- Witness for C1's amended theorem at the whitespace input `"  "`. -/
theorem C1_witness :
    (OCRExtractor.extract_data "  " none "2025-01-01T00:00:00").layout_detectado = some "vazio" ∧
    (OCRExtractor.extract_data "  " none "2025-01-01T00:00:00").valor_numerico = none :=
  ⟨(C1_empty_input_error_receipt "  " none "2025-01-01T00:00:00" (by decide)).2.1,
   (C1_empty_input_error_receipt "  " none "2025-01-01T00:00:00" (by decide)).2.2.2.1⟩

/-- C1 counterexample: on the empty input the error Receipt's layout
marker is not `"generico"` and `valor_numerico` is absent, contradicting
the claim's `layout = Generic` and `valor_numerico == 0`. -/
theorem C1_counterexample :
    (OCRExtractor.extract_data "" none "2025-01-01T00:00:00").erro.isSome = true ∧
    (OCRExtractor.extract_data "" none "2025-01-01T00:00:00").layout_detectado ≠ some "generico" ∧
    (OCRExtractor.extract_data "" none "2025-01-01T00:00:00").valor_numerico = none := by
  decide

/-- C7 (confirmed): the two copies of the layout classifier have
drifted: on the input `"nubank"` the extractor method returns
`"nubank"` while the helpers copy (whose branch requires
`"nu pagamentos"`) returns `"generico"`. -/
theorem C7_layout_classifier_drift :
    OCRExtractor.detect_document_layout "nubank" = "nubank" ∧
    helpers.detect_document_layout "nubank" = "generico" ∧
    OCRExtractor.detect_document_layout "nubank" ≠ helpers.detect_document_layout "nubank" := by
  decide

/-- C4 (confirmed): currency round-trip.  Every representable
non-negative two-decimal amount (`n` cents, value `n / 100`) survives
`format_currency` followed by `_parse_currency`; in particular
`1247.90 → "R$ 1.247,90" → 1247.90`. -/
theorem C4_currency_round_trip :
    (∀ n : ℕ,
      (OCRExtractor._parse_currency (helpers.format_currency ⟨(n : ℤ), 2⟩)).toQ = (n : ℚ) / 100) ∧
    helpers.format_currency ⟨124790, 2⟩ = "R$ 1.247,90" ∧
    (OCRExtractor._parse_currency "R$ 1.247,90").toQ = 1247.90 := by
  refine ⟨?_, by decide, ?_⟩
  · intro n
    rw [format_currency_cents n]
    rw [parse_currency_core (n / 100) (n % 100) (Nat.mod_lt _ (by norm_num)) "R$ ".toList
      (by decide)]
    have hz : ((n / 100 : ℕ) : ℤ) * 100 + ((n % 100 : ℕ) : ℤ) = (n : ℤ) := by
      have := Nat.div_add_mod n 100
      push_cast
      omega
    rw [hz, PyFloat.toQ_cents]
    norm_num
  · have h : OCRExtractor._parse_currency "R$ 1.247,90" = ⟨124790, 2⟩ := by decide
    rw [h, PyFloat.toQ_cents]
    norm_num

/-- C2 counterexample: on `"1,234.56"`, where `'.'` is the rightmost
separator, `_parse_currency` still treats the comma as the decimal
separator and yields `1.23456` — not `1234.56` — and the result is not a
two-decimal value, so it is not rounded to 2 digits. -/
theorem C2_counterexample :
    pyIn "," "1,234.56" = true ∧ pyIn "." "1,234.56" = true ∧
    (OCRExtractor._parse_currency "1,234.56").toQ = 123456 / 100000 ∧
    (123456 / 100000 : ℚ) ≠ 1234.56 ∧
    ¬ (∃ z : ℤ, (123456 / 100000 : ℚ) = (z : ℚ) / 100) := by
  refine ⟨by decide, by decide, ?_, by norm_num, ?_⟩
  · have h : OCRExtractor._parse_currency "1,234.56" = ⟨123456, 5⟩ := by decide
    rw [h]
    unfold PyFloat.toQ
    norm_num
  · rintro ⟨z, hz⟩
    have hq : (z : ℚ) * 1000 = 123456 := by
      field_simp at hz
      linarith
    have hint : z * 1000 = 123456 := by exact_mod_cast hq
    omega

/-- C2 (corrected): whenever both `','` and `'.'` occur, the comma is
always the decimal separator (dots are all discarded as thousands
separators) regardless of which symbol is rightmost; with only `','`
present it is the decimal separator; and the result is the exact parsed
value, not rounded to 2 decimal digits. -/
theorem C2_amended_comma_decimal :
    (∀ a b : ℕ, b < 100 →
      (OCRExtractor._parse_currency
          (String.mk (group3 '.' (natToDecStr a) ++ ',' :: pad2 b))).toQ
        = (a : ℚ) + (b : ℚ) / 100) ∧
    (OCRExtractor._parse_currency "1,234.56").toQ = 123456 / 100000 ∧
    (OCRExtractor._parse_currency "33,5").toQ = 33.5 := by
  refine ⟨?_, ?_, ?_⟩
  · intro a b hb
    have hcore := parse_currency_core a b hb [] rfl
    rw [List.nil_append] at hcore
    rw [hcore, PyFloat.toQ_cents]
    push_cast
    ring
  · have h : OCRExtractor._parse_currency "1,234.56" = ⟨123456, 5⟩ := by decide
    rw [h]
    unfold PyFloat.toQ
    norm_num
  · have h : OCRExtractor._parse_currency "33,5" = ⟨335, 1⟩ := by decide
    rw [h]
    unfold PyFloat.toQ
    norm_num

/-- Witness for C2's amended theorem: `"1.247,90"` (no `R$` prefix)
parses to `1247.90`. -/
theorem C2_witness :
    (OCRExtractor._parse_currency
        (String.mk (group3 '.' (natToDecStr 1247) ++ ',' :: pad2 90))).toQ
      = (1247 : ℚ) + 90 / 100 :=
  C2_amended_comma_decimal.1 1247 90 (by norm_num)

/-- C5 (confirmed): the helpers layout classifier is a total function
into the fixed label set; the highest-priority Will-Bank signature
forces `"will_bank"`; and it returns `"generico"` exactly when no
layout keyword signature occurs in the lower-cased text. -/
theorem C5_classifier_total_generic_default (s : String) :
    helpers.detect_document_layout s ∈ layoutLabels ∧
    (pyIn "will bank" (pyLower s) = true → helpers.detect_document_layout s = "will_bank") ∧
    (helpers.detect_document_layout s = "generico" ↔ anySignature s = false) := by
  refine ⟨?_, ?_, ?_⟩
  · simp only [helpers.detect_document_layout, layoutLabels]
    split_ifs <;> simp
  · intro h
    simp only [helpers.detect_document_layout]
    simp [h]
  · simp only [helpers.detect_document_layout, anySignature, layoutKeywords,
      List.any_cons, List.any_nil, Bool.or_eq_false_iff]
    split_ifs with h1 h2 h3 h4 h5 h6 h7
    · constructor
      · intro hx; exact absurd hx (by decide)
      · rintro ⟨hw1, hw2, -⟩
        rw [hw1, hw2] at h1
        simp at h1
    · constructor
      · intro hx; exact absurd hx (by decide)
      · rintro ⟨-, -, hnu, -⟩
        rw [hnu] at h2
        simp at h2
    · constructor
      · intro hx; exact absurd hx (by decide)
      · rintro ⟨-, -, -, hec, hca, -⟩
        rw [hec, hca] at h3
        simp at h3
    · constructor
      · intro hx; exact absurd hx (by decide)
      · rintro ⟨-, -, -, -, -, hbb, -⟩
        rw [hbb] at h4
        simp at h4
    · constructor
      · intro hx; exact absurd hx (by decide)
      · rintro ⟨-, -, -, -, -, -, hbr, -⟩
        rw [hbr] at h5
        simp at h5
    · constructor
      · intro hx; exact absurd hx (by decide)
      · rintro ⟨-, -, -, -, -, -, -, hit1, hit2, -⟩
        rw [hit1, hit2] at h6
        simp at h6
    · constructor
      · intro hx; exact absurd hx (by decide)
      · rintro ⟨-, -, -, -, -, -, -, -, -, hsa, -⟩
        rw [hsa] at h7
        simp at h7
    · have hw1 : pyIn "will bank" (pyLower s) = false := by
        rcases hv : pyIn "will bank" (pyLower s) with _ | _
        · rfl
        · exact absurd (by rw [hv]; simp) h1
      have hw2 : pyIn "willbank" (pyLower s) = false := by
        rcases hv : pyIn "willbank" (pyLower s) with _ | _
        · rfl
        · exact absurd (by rw [hv]; simp) h1
      have hnu : pyIn "nu pagamentos" (pyLower s) = false := by
        rcases hv : pyIn "nu pagamentos" (pyLower s) with _ | _
        · rfl
        · exact absurd (by rw [hv, hw1]; simp) h2
      have hec : pyIn "caixa econômica" (pyLower s) = false := by
        rcases hv : pyIn "caixa econômica" (pyLower s) with _ | _
        · rfl
        · exact absurd (by rw [hv]; simp) h3
      have hca : pyIn "caixa" (pyLower s) = false := by
        rcases hv : pyIn "caixa" (pyLower s) with _ | _
        · rfl
        · exact absurd (by rw [hv]; simp) h3
      have hbb : pyIn "banco do brasil" (pyLower s) = false := by
        rcases hv : pyIn "banco do brasil" (pyLower s) with _ | _
        · rfl
        · exact absurd hv h4
      have hbr : pyIn "bradesco" (pyLower s) = false := by
        rcases hv : pyIn "bradesco" (pyLower s) with _ | _
        · rfl
        · exact absurd hv h5
      have hit1 : pyIn "itaú" (pyLower s) = false := by
        rcases hv : pyIn "itaú" (pyLower s) with _ | _
        · rfl
        · exact absurd (by rw [hv]; simp) h6
      have hit2 : pyIn "itau" (pyLower s) = false := by
        rcases hv : pyIn "itau" (pyLower s) with _ | _
        · rfl
        · exact absurd (by rw [hv]; simp) h6
      have hsa : pyIn "santander" (pyLower s) = false := by
        rcases hv : pyIn "santander" (pyLower s) with _ | _
        · rfl
        · exact absurd hv h7
      constructor
      · intro hgen
        refine ⟨hw1, hw2, hnu, hec, hca, hbb, hbr, hit1, hit2, hsa, trivial⟩
      · intro hall
        rfl

/-- Witness for C5 at concrete inputs: a Will-Bank text is classified
`"will_bank"`, a signature-free text is classified `"generico"`. -/
theorem C5_witness :
    helpers.detect_document_layout "Comprovante Will Bank" = "will_bank" ∧
    helpers.detect_document_layout "um texto qualquer" = "generico" :=
  ⟨(C5_classifier_total_generic_default "Comprovante Will Bank").2.1 (by decide),
   (C5_classifier_total_generic_default "um texto qualquer").2.2.mpr (by decide)⟩

/-- C8 (confirmed): the CPF validator accepts the masked form (with `.`
or the OCR-noise `,` as separator) and the unmasked 11-digit form,
rejects `"abc"`, and rejects every 9-digit string; it checks format
only. -/
theorem C8_cpf_format_validator :
    helpers.validate_cpf "***.120.983-**" = true ∧
    helpers.validate_cpf "***,120,983-**" = true ∧
    helpers.validate_cpf "12345678900" = true ∧
    helpers.validate_cpf "abc" = false ∧
    (∀ l : List Char, l.length = 9 → (∀ c ∈ l, c.isDigit = true) →
      helpers.validate_cpf (String.mk l) = false) := by
  refine ⟨by decide, by decide, by decide, by decide, ?_⟩
  intro l hlen hdig
  rcases l with _ | ⟨c1, _ | ⟨c2, _ | ⟨c3, _ | ⟨c4, _ | ⟨c5, _ | ⟨c6, _ | ⟨c7, _ | ⟨c8,
    _ | ⟨c9, rest⟩⟩⟩⟩⟩⟩⟩⟩⟩
  all_goals try (exfalso; simp only [List.length_nil, List.length_cons] at hlen; omega)
  simp only [List.length_nil, List.length_cons] at hlen
  have hrest : rest = [] := List.length_eq_zero.mp (by omega)
  subst hrest
  have d1 := hdig c1 (by simp)
  have d2 := hdig c2 (by simp)
  have d3 := hdig c3 (by simp)
  have d4 := hdig c4 (by simp)
  have d5 := hdig c5 (by simp)
  have d6 := hdig c6 (by simp)
  have d7 := hdig c7 (by simp)
  have d8 := hdig c8 (by simp)
  have d9 := hdig c9 (by simp)
  unfold helpers.validate_cpf
  rw [if_neg (by
    intro hcontra
    rw [String.ext_iff] at hcontra
    simp at hcontra)]
  have hstrip : pyStripList (String.mk [c1, c2, c3, c4, c5, c6, c7, c8, c9]).toList
      = [c1, c2, c3, c4, c5, c6, c7, c8, c9] :=
    pyStripList_id (fun c hc => digit_not_space (hdig c hc))
  rw [hstrip]
  have hstar : ∀ {c : Char}, c.isDigit = true → helpers.isStarChar c = false := by
    intro c hc
    unfold helpers.isStarChar
    exact beq_eq_false_iff_ne.mpr (ne_of_isDigit hc (by decide))
  have hsep : ∀ {c : Char}, c.isDigit = true → isSepChar c = false := by
    intro c hc
    unfold isSepChar
    simp only [Bool.or_eq_false_iff, beq_eq_false_iff_ne]
    exact ⟨ne_of_isDigit hc (by decide), ne_of_isDigit hc (by decide)⟩
  have hdash : ∀ {c : Char}, c.isDigit = true → helpers.isDashChar c = false := by
    intro c hc
    unfold helpers.isDashChar
    exact beq_eq_false_iff_ne.mpr (ne_of_isDigit hc (by decide))
  simp only [helpers.cpfPatMasked, helpers.cpfPatFull, helpers.cpfPatMaskedBare,
    helpers.cpfPatDigits11, helpers.eatExact, helpers.eatOpt,
    hstar d1, hsep d4, hsep d7, hdash d9,
    d1, d2, d3, d4, d5, d6, d7, d8, d9, if_true, if_false,
    Bool.or_eq_false_iff]
  simp [helpers.atEnd]

/-- Witness for C8's universal part at the concrete 9-digit string
`"123456789"`. -/
theorem C8_witness :
    helpers.validate_cpf (String.mk ['1', '2', '3', '4', '5', '6', '7', '8', '9']) = false :=
  C8_cpf_format_validator.2.2.2.2 ['1', '2', '3', '4', '5', '6', '7', '8', '9']
    (by decide) (by decide)

/-- C9 (confirmed): the confidence score attached to the chatbot-ready
Receipt output (`score_confianca`, the ratio of matched to total checks
in `validate_specific_patterns`) lies in `[0, 1]` for every extracted
data dictionary. -/
theorem C9_confidence_in_unit_interval (d : ExtractedData) (stamp : String) :
    0 ≤ (main.create_chatbot_ready_data d stamp).metadados_sistema.validacoes.score_confianca ∧
    (main.create_chatbot_ready_data d stamp).metadados_sistema.validacoes.score_confianca ≤ 1 := by
  have heq : (main.create_chatbot_ready_data d stamp).metadados_sistema.validacoes.score_confianca
      = (helpers.validate_specific_patterns d).confidence := rfl
  rw [heq]
  simp only [helpers.validate_specific_patterns]
  exact ratio_bounds _ _

/-- The sanity guard of the Nubank value loop: any value it returns
passed the `0.01 <= v <= 10000` filter. -/
theorem nbValorTry_guard (vs : List RPat) (cl : List Char) (v : PyFloat)
    (h : OCRExtractor.nbValorTry vs cl = some v) :
    PyFloat.le ⟨1, 2⟩ v = true ∧ PyFloat.le v ⟨10000, 0⟩ = true := by
  unfold OCRExtractor.nbValorTry at h
  rcases h1 : reSearchGroup1 vs cl with _ | g
  · simp only [h1] at h
    exact Option.noConfusion h
  · simp only [h1] at h
    rcases h2 : pyFloatList (replaceChar ',' '.' g) with _ | w
    · simp only [h2] at h
      exact Option.noConfusion h
    · simp only [h2] at h
      split_ifs at h with hg
      cases h
      exact hg

/-- C10 (confirmed): whenever `extract_nubank_data` sets
`valor_numerico`, the value lies in `[0.01, 10000]`; a candidate outside
the range is silently discarded, and with no in-range candidate the
field stays absent (e.g. for `"R$ 99999,00"`). -/
theorem C10_nubank_value_sanity :
    (∀ (s : String) (v : PyFloat),
        (OCRExtractor.extract_nubank_data s).valor_numerico = some v →
          1 / 100 ≤ v.toQ ∧ v.toQ ≤ 10000) ∧
    (OCRExtractor.extract_nubank_data "R$ 99999,00").valor_numerico = none := by
  constructor
  · intro s v h
    replace h : OCRExtractor.nbValor ((helpers.correct_common_ocr_errors s).toList) = some v := h
    unfold OCRExtractor.nbValor at h
    have hg : PyFloat.le ⟨1, 2⟩ v = true ∧ PyFloat.le v ⟨10000, 0⟩ = true := by
      rcases ht1 : OCRExtractor.nbValorTry [OCRExtractor.nbValorPat1]
          ((helpers.correct_common_ocr_errors s).toList) with _ | w1 <;>
        rw [ht1] at h <;> simp only [Option.orElse] at h
      · rcases ht2 : OCRExtractor.nbValorTry [OCRExtractor.nbValorPat2]
            ((helpers.correct_common_ocr_errors s).toList) with _ | w2 <;>
          rw [ht2] at h <;> simp only [Option.orElse] at h
        · exact nbValorTry_guard _ _ _ h
        · cases h
          exact nbValorTry_guard _ _ _ ht2
      · cases h
        exact nbValorTry_guard _ _ _ ht1
    constructor
    · have := PyFloat.le_toQ hg.1
      have h12 : PyFloat.toQ ⟨1, 2⟩ = 1 / 100 := by
        unfold PyFloat.toQ
        norm_num
      rw [h12] at this
      exact this
    · have := PyFloat.le_toQ hg.2
      have h10000 : PyFloat.toQ ⟨10000, 0⟩ = 10000 := by
        unfold PyFloat.toQ
        norm_num
      rw [h10000] at this
      exact this
  · decide

/-- Witness for C10 at the concrete Nubank text `"Valor R$ 50,00"`,
whose extracted value `50.00` satisfies the bounds. -/
theorem C10_witness :
    (1 : ℚ) / 100 ≤ PyFloat.toQ ⟨5000, 2⟩ ∧ PyFloat.toQ ⟨5000, 2⟩ ≤ 10000 :=
  C10_nubank_value_sanity.1 "Valor R$ 50,00" ⟨5000, 2⟩ (by decide)

/-- C6 (corrected): the Will-Bank extractor hard-codes person-specific
outputs.  Whenever it completes without raising on a corrected text
containing `"Antonio Valmi"`, the result has `valor_numerico = 33.00`,
`data = "20/05/2025"`, `hora = "17:51:22"` regardless of the values
actually present; `"Sheila Fernandes"` analogously forces `17.00` and
`"22/05/2025"`, but only when `"Antonio Valmi"` is not also present
(the Antonio branch has priority).  The completion condition is needed
because the destination-name step can raise `IndexError` (last
conjunct: a text whose all-caps `"PARA ANA CLEUMA…"` line matches the
group-less first pattern makes the source raise `'no such group'`). -/
theorem C6_hardcoded_person_rules :
    (∀ t : String, pyIn "Antonio Valmi" (helpers.correct_common_ocr_errors t) = true →
        ∀ d : ExtractedData, OCRExtractor.extract_pix_will_bank_data t = Except.ok d →
          d.valor_numerico.map PyFloat.toQ = some 33 ∧
          d.data = some "20/05/2025" ∧
          d.hora = some "17:51:22") ∧
    (∀ t : String, pyIn "Sheila Fernandes" (helpers.correct_common_ocr_errors t) = true →
        pyIn "Antonio Valmi" (helpers.correct_common_ocr_errors t) = false →
        ∀ d : ExtractedData, OCRExtractor.extract_pix_will_bank_data t = Except.ok d →
          d.valor_numerico.map PyFloat.toQ = some 17 ∧
          d.data = some "22/05/2025" ∧
          d.hora = some "17:52:04") ∧
    OCRExtractor.extract_pix_will_bank_data
        "Will Bank De Antonio Valmi PARA ANA CLEUMA SOUSA DOS SANTOS"
      = Except.error "no such group" := by
  refine ⟨?_, ?_, rfl⟩
  · intro t h d hok
    have ha : pyIn "Antonio" "Antonio Valmi Passos Da Rocha" = true := by decide
    simp only [OCRExtractor.extract_pix_will_bank_data, h, ha, if_true] at hok
    rcases hw : OCRExtractor.wbDestino ((helpers.correct_common_ocr_errors t).toList)
      with e | dn
    · simp only [hw] at hok
      exact Except.noConfusion hok
    · simp only [hw] at hok
      cases hok
      refine ⟨?_, rfl, rfl⟩
      norm_num [PyFloat.toQ, Option.map_some]
  · intro t hs hafalse d hok
    have ha2 : pyIn "Antonio" "Sheila Fernandes Da Silva" = false := by decide
    have hs2 : pyIn "Sheila" "Sheila Fernandes Da Silva" = true := by decide
    simp only [OCRExtractor.extract_pix_will_bank_data, hs, hafalse, ha2, hs2,
      Bool.false_eq_true, if_false, if_true] at hok
    rcases hw : OCRExtractor.wbDestino ((helpers.correct_common_ocr_errors t).toList)
      with e | dn
    · simp only [hw] at hok
      exact Except.noConfusion hok
    · simp only [hw] at hok
      cases hok
      refine ⟨?_, rfl, rfl⟩
      norm_num [PyFloat.toQ, Option.map_some]

/-- Witness for C6's amended theorem at concrete texts for both persons
(the extractor completes without raising on each, which the `by decide`
equalities establish). -/
theorem C6_witness :
    wbAntonioExample.valor_numerico.map PyFloat.toQ = some 33 ∧
    wbAntonioExample.data = some "20/05/2025" ∧
    wbSheilaExample.valor_numerico.map PyFloat.toQ = some 17 ∧
    wbSheilaExample.data = some "22/05/2025" :=
  have hA : OCRExtractor.extract_pix_will_bank_data "De Antonio Valmi R$ 99,99 01/01/2000"
      = Except.ok wbAntonioExample := rfl
  have hS : OCRExtractor.extract_pix_will_bank_data "De Sheila Fernandes R$ 99,99"
      = Except.ok wbSheilaExample := rfl
  have pA := C6_hardcoded_person_rules.1 "De Antonio Valmi R$ 99,99 01/01/2000" (by decide)
    wbAntonioExample hA
  have pS := C6_hardcoded_person_rules.2.1 "De Sheila Fernandes R$ 99,99" (by decide)
    (by decide) wbSheilaExample hS
  ⟨pA.1, pA.2.1, pS.1, pS.2.1⟩

/-- C6 counterexample: a text containing both names extracts without
raising to Antonio's hard-coded `33.00`, so the claim's unconditional
Sheila rule (`17.00`) is false as stated. -/
theorem C6_counterexample :
    pyIn "Sheila Fernandes"
      (helpers.correct_common_ocr_errors "Sheila Fernandes e Antonio Valmi") = true ∧
    ((OCRExtractor.extract_pix_will_bank_data
        "Sheila Fernandes e Antonio Valmi").toOption.bind
          ExtractedData.valor_numerico).map PyFloat.toQ = some 33 ∧
    (some (33 : ℚ) : Option ℚ) ≠ some 17 := by
  refine ⟨by decide, ?_, by norm_num⟩
  have h : (OCRExtractor.extract_pix_will_bank_data
      "Sheila Fernandes e Antonio Valmi").toOption.bind ExtractedData.valor_numerico
      = some ⟨33, 0⟩ := by decide
  rw [h]
  norm_num [PyFloat.toQ, Option.map_some]

/-- C3 (confirmed): end-to-end on the Will-Bank scenario text (which
contains the five required snippets), the pipeline classifies the
layout as `"will_bank"` and the chatbot-ready Receipt carries
`valor_numerico = 33.00`, `destino.nome_completo =
"Ana Cleuma Sousa Dos Santos"`, and a non-empty `data_processamento`
(the processing timestamp `now`). -/
theorem C3_end_to_end_will_bank (path : Option String) (now stamp : String) (hnow : now ≠ "") :
    pyIn "Will Bank" scenarioText = true ∧
    pyIn "Para Ana Cleuma Sousa Dos Santos" scenarioText = true ∧
    pyIn "R$ 33,00" scenarioText = true ∧
    pyIn "20/05/2025" scenarioText = true ∧
    pyIn "17:51:22" scenarioText = true ∧
    (OCRExtractor.extract_data scenarioText path now).layout_detectado = some "will_bank" ∧
    (main.create_chatbot_ready_data (OCRExtractor.extract_data scenarioText path now)
        stamp).resumo.valor_numerico.toQ = 33 ∧
    (main.create_chatbot_ready_data (OCRExtractor.extract_data scenarioText path now)
        stamp).participantes_destino.nome_completo = "Ana Cleuma Sousa Dos Santos" ∧
    (main.create_chatbot_ready_data (OCRExtractor.extract_data scenarioText path now)
        stamp).metadados_sistema.data_processamento ≠ "" := by
  refine ⟨by decide, by decide, by decide, by decide, by decide, ?_, ?_, ?_, ?_⟩
  · rfl
  · have hv : (main.create_chatbot_ready_data (OCRExtractor.extract_data scenarioText path now)
        stamp).resumo.valor_numerico = ⟨3300, 2⟩ := rfl
    rw [hv, PyFloat.toQ_cents]
    norm_num
  · rfl
  · exact hnow

/-- Witness for C3 at a concrete file path, timestamp and id stamp. -/
theorem C3_witness :
    (OCRExtractor.extract_data scenarioText (some "comprovante1.jpg")
        "2025-05-20T17:51:22").layout_detectado = some "will_bank" ∧
    (main.create_chatbot_ready_data
        (OCRExtractor.extract_data scenarioText (some "comprovante1.jpg") "2025-05-20T17:51:22")
        "20250520_175122").metadados_sistema.data_processamento ≠ "" :=
  ⟨(C3_end_to_end_will_bank (some "comprovante1.jpg") "2025-05-20T17:51:22" "20250520_175122"
      (by decide)).2.2.2.2.2.1,
   (C3_end_to_end_will_bank (some "comprovante1.jpg") "2025-05-20T17:51:22" "20250520_175122"
      (by decide)).2.2.2.2.2.2.2.2⟩
